import Mathlib

/-!
# ERPNext-cli terminal engine — verification development

Shallow embedding of the terminal application engine of the ERPNext CLI
(Go sources under `internal/erp`, v1.7.2): the dashboard aggregator
(the five-goroutine `loadDashboard` of the dashboard TUI file shipped
under `src/unnamed`, with the stock collector from `report.go`), the
Bubble Tea model/update loop (`tui.go`, `tui_forms.go`,
`tui_inventory.go`, `tui_purchasing.go`, stock and sales TUI files),
and the task-dispatch discipline.

Modelling conventions:
* Go `float64` money/metric values are embedded as `Int`; no proved
  property performs float arithmetic, the values are opaque payloads.
* `map[string]interface{}` documents are embedded as association lists
  of a small `GoVal` universe.
* Presentation-only state (window size, spinner, viewport, lipgloss
  styles and the render functions) is not modelled; no claim mentions it.
* The Bubble Tea runtime is modelled as a transition system: a `Step` is
  either a key event applied through `Update`, or the delivery of the
  terminating message of one outstanding background task.
-/

namespace ErpTui

/-! ## Dashboard aggregator (the snapshot's dashboard TUI file and the
spec's §4.6 collection contract)

`Model.loadDashboard` — defined in the dashboard TUI file shipped under
`src/unnamed` (the file `tui.go` v1.7.2's `renderDashboardContent` call
resolves to) — starts five section goroutines over a `sync.WaitGroup`:
`fetchStockMetrics`, `fetchPurchaseMetrics`, `fetchSystemMetrics`,
`fetchSalesMetrics`, `fetchPaymentMetrics`.  Each writes its portion of
one shared `ReportData` under a `sync.Mutex`, and a single
`dashboardLoadedMsg` is emitted after `wg.Wait()`.

Of the five collectors only `fetchStockMetrics` has source in the
snapshot (`report.go`); the current `report.go` defining the other four
is absent, so those are spec-modelled from §4.6: on success a section
writes the fields its dashboard renderer displays
(`renderDashboardPurchases`/`Sales`/`Payments`/`System`), and "the
aggregator reports partial results (with a list of per-section failure
notices) rather than failing the whole collection if one section's
fetch errors".  The spec also fixes the writes of distinct sections to
be disjoint ("the merge is commutative (each task writes disjoint
fields)"), so each section's notices are kept in that section's own slot
of the record, and the rendered `Errors` list is their concatenation
(`ReportData.errors`).

A fetch outcome is `failed` (the request returned an error), `noData`
(the request succeeded but the payload did not have the expected shape —
the Go type assertion fails and nothing is written), or `ok payload`.
Each `mu.Lock() … mu.Unlock()` region becomes one atomic
`SectionWrite` applied to the shared record. -/

inductive FetchRes (α : Type) where
  | failed
  | noData
  | ok (a : α)
deriving DecidableEq

/-- The dashboard's top-supplier rows (`Name` and `POCount` are
rendered). -/
structure SupplierStat where
  name : String
  poCount : Nat
  value : Int
deriving DecidableEq

/-- A row of the `Bin` fetch of `fetchStockMetrics` (`report.go`):
fields are present only when the Go type assertion on the corresponding
`float64` succeeds. -/
structure BinRow where
  stockValue : Option Int
  actualQty : Option Int
deriving DecidableEq

/-- `totalValue` accumulation in `fetchStockMetrics`. -/
def binStockValue (rows : List BinRow) : Int :=
  rows.foldl (fun acc b => match b.stockValue with | some v => acc + v | none => acc) 0

/-- `zeroStock` accumulation in `fetchStockMetrics` (`actual_qty == 0`). -/
def binZeroStock (rows : List BinRow) : Nat :=
  rows.foldl (fun acc b => match b.actualQty with
    | some q => if q = 0 then acc + 1 else acc
    | none => acc) 0

/-- What `fetchPurchaseMetrics` reports on success (spec-modelled; the
fields are the ones `renderDashboardPurchases` displays). -/
structure PurchaseFigures where
  draftPOs : Nat
  draftPOValue : Int
  pendingPOs : Nat
  pendingPOValue : Int
  completedPOs : Nat
  completedPOValue : Int
  unpaidInvoices : Nat
  unpaidValue : Int
  topSuppliers : List SupplierStat

/-- What `fetchSalesMetrics` reports on success (spec-modelled; fields
from `renderDashboardSales`). -/
structure SalesFigures where
  openQuotations : Nat
  pendingSOs : Nat
  completedSOs : Nat
  completedSOValue : Int
  unpaidSIs : Nat
  unpaidSIValue : Int

/-- What `fetchPaymentMetrics` reports on success (spec-modelled; fields
from `renderDashboardPayments`). -/
structure PaymentFigures where
  totalReceivables : Int
  totalPayables : Int

/-- What `fetchSystemMetrics` reports on success (spec-modelled; fields
from `renderDashboardSystem`). -/
structure SystemFigures where
  totalSuppliers : Nat
  totalCustomers : Nat
  totalWarehouses : Nat
  totalGroups : Nat

/-- The shared summary record: the fields the five dashboard renderers
display, plus each section's failure notices.  The Go struct carries a
single `Errors []string`; per the spec the sections' writes are
disjoint, so each section's notices live in their own slot here and the
rendered list is `ReportData.errors` below. -/
structure ReportData where
  totalItems : Nat
  totalStockValue : Int
  zeroStockItems : Nat
  draftPOs : Nat
  draftPOValue : Int
  pendingPOs : Nat
  pendingPOValue : Int
  completedPOs : Nat
  completedPOValue : Int
  unpaidInvoices : Nat
  unpaidValue : Int
  topSuppliers : List SupplierStat
  openQuotations : Nat
  pendingSOs : Nat
  completedSOs : Nat
  completedSOValue : Int
  unpaidSIs : Nat
  unpaidSIValue : Int
  totalReceivables : Int
  totalPayables : Int
  totalSuppliers : Nat
  totalCustomers : Nat
  totalWarehouses : Nat
  totalGroups : Nat
  stockNotes : List String
  purchaseNotes : List String
  systemNotes : List String
  salesNotes : List String
  paymentNotes : List String

/-- The rendered `Warnings` list (`data.Errors`): the per-section
notices, in the collection's section order. -/
def ReportData.errors (d : ReportData) : List String :=
  d.stockNotes ++ d.purchaseNotes ++ d.systemNotes ++ d.salesNotes ++ d.paymentNotes

def emptyReportData : ReportData :=
  ⟨0, 0, 0, 0, 0, 0, 0, 0, 0, 0, 0, [], 0, 0, 0, 0, 0, 0, 0, 0, 0, 0, 0, 0,
   [], [], [], [], []⟩

/-- One mutex-protected write region of a section task.  The constructor
set partitions by section: stock (1), purchasing (2), system (3),
sales (4), payments (5); each section also owns its notice appender. -/
inductive SectionWrite where
  | wTotalItems (n : Nat)
  | wStockValue (v : Int) (z : Nat)
  | wStockNote (e : String)
  | wDraftPOs (n : Nat) (v : Int)
  | wPendingPOs (n : Nat) (v : Int)
  | wCompletedPOs (n : Nat) (v : Int)
  | wTopSuppliers (s : List SupplierStat)
  | wUnpaidInvoices (n : Nat) (v : Int)
  | wPurchaseNote (e : String)
  | wTotalSuppliers (n : Nat)
  | wTotalCustomers (n : Nat)
  | wTotalWarehouses (n : Nat)
  | wTotalGroups (n : Nat)
  | wSystemNote (e : String)
  | wOpenQuotations (n : Nat)
  | wPendingSOs (n : Nat)
  | wCompletedSOs (n : Nat) (v : Int)
  | wUnpaidSIs (n : Nat) (v : Int)
  | wSalesNote (e : String)
  | wReceivables (v : Int)
  | wPayables (v : Int)
  | wPaymentNote (e : String)

def applyWrite (d : ReportData) (w : SectionWrite) : ReportData :=
  match w with
  | .wTotalItems n => { d with totalItems := n }
  | .wStockValue v z => { d with totalStockValue := v, zeroStockItems := z }
  | .wStockNote e => { d with stockNotes := d.stockNotes ++ [e] }
  | .wDraftPOs n v => { d with draftPOs := n, draftPOValue := v }
  | .wPendingPOs n v => { d with pendingPOs := n, pendingPOValue := v }
  | .wCompletedPOs n v => { d with completedPOs := n, completedPOValue := v }
  | .wTopSuppliers s => { d with topSuppliers := s }
  | .wUnpaidInvoices n v => { d with unpaidInvoices := n, unpaidValue := v }
  | .wPurchaseNote e => { d with purchaseNotes := d.purchaseNotes ++ [e] }
  | .wTotalSuppliers n => { d with totalSuppliers := n }
  | .wTotalCustomers n => { d with totalCustomers := n }
  | .wTotalWarehouses n => { d with totalWarehouses := n }
  | .wTotalGroups n => { d with totalGroups := n }
  | .wSystemNote e => { d with systemNotes := d.systemNotes ++ [e] }
  | .wOpenQuotations n => { d with openQuotations := n }
  | .wPendingSOs n => { d with pendingSOs := n }
  | .wCompletedSOs n v => { d with completedSOs := n, completedSOValue := v }
  | .wUnpaidSIs n v => { d with unpaidSIs := n, unpaidSIValue := v }
  | .wSalesNote e => { d with salesNotes := d.salesNotes ++ [e] }
  | .wReceivables v => { d with totalReceivables := v }
  | .wPayables v => { d with totalPayables := v }
  | .wPaymentNote e => { d with paymentNotes := d.paymentNotes ++ [e] }

/-- Which section task issues a given write (1 = stock, 2 = purchasing,
3 = system, 4 = sales, 5 = payments). -/
def sectionId (w : SectionWrite) : Nat :=
  match w with
  | .wTotalItems _ => 1
  | .wStockValue _ _ => 1
  | .wStockNote _ => 1
  | .wDraftPOs _ _ => 2
  | .wPendingPOs _ _ => 2
  | .wCompletedPOs _ _ => 2
  | .wTopSuppliers _ => 2
  | .wUnpaidInvoices _ _ => 2
  | .wPurchaseNote _ => 2
  | .wTotalSuppliers _ => 3
  | .wTotalCustomers _ => 3
  | .wTotalWarehouses _ => 3
  | .wTotalGroups _ => 3
  | .wSystemNote _ => 3
  | .wOpenQuotations _ => 4
  | .wPendingSOs _ => 4
  | .wCompletedSOs _ _ => 4
  | .wUnpaidSIs _ _ => 4
  | .wSalesNote _ => 4
  | .wReceivables _ => 5
  | .wPayables _ => 5
  | .wPaymentNote _ => 5

/-- Write sequence of `Client.fetchStockMetrics` (`report.go`): the
item-count fetch, then the bin fetch; each error records the section's
notice. -/
def fetchStockMetricsWrites (items : FetchRes (List String))
    (bins : FetchRes (List BinRow)) : List SectionWrite :=
  (match items with
   | .ok xs => [.wTotalItems xs.length]
   | .noData => []
   | .failed => [.wStockNote "Failed to fetch items"]) ++
  (match bins with
   | .ok bs => [.wStockValue (binStockValue bs) (binZeroStock bs)]
   | .noData => []
   | .failed => [.wStockNote "Failed to fetch stock data"])

/-- Write sequence of `Client.fetchPurchaseMetrics` (spec-modelled): on
success the purchasing fields, on a fetch error the section notice. -/
def fetchPurchaseMetricsWrites (r : FetchRes PurchaseFigures) : List SectionWrite :=
  match r with
  | .ok g => [.wDraftPOs g.draftPOs g.draftPOValue,
              .wPendingPOs g.pendingPOs g.pendingPOValue,
              .wCompletedPOs g.completedPOs g.completedPOValue,
              .wTopSuppliers g.topSuppliers,
              .wUnpaidInvoices g.unpaidInvoices g.unpaidValue]
  | .noData => []
  | .failed => [.wPurchaseNote "Failed to fetch purchasing data"]

/-- Write sequence of `Client.fetchSystemMetrics` (spec-modelled). -/
def fetchSystemMetricsWrites (r : FetchRes SystemFigures) : List SectionWrite :=
  match r with
  | .ok g => [.wTotalSuppliers g.totalSuppliers,
              .wTotalCustomers g.totalCustomers,
              .wTotalWarehouses g.totalWarehouses,
              .wTotalGroups g.totalGroups]
  | .noData => []
  | .failed => [.wSystemNote "Failed to fetch system data"]

/-- Write sequence of `Client.fetchSalesMetrics` (spec-modelled). -/
def fetchSalesMetricsWrites (r : FetchRes SalesFigures) : List SectionWrite :=
  match r with
  | .ok g => [.wOpenQuotations g.openQuotations,
              .wPendingSOs g.pendingSOs,
              .wCompletedSOs g.completedSOs g.completedSOValue,
              .wUnpaidSIs g.unpaidSIs g.unpaidSIValue]
  | .noData => []
  | .failed => [.wSalesNote "Failed to fetch sales data"]

/-- Write sequence of `Client.fetchPaymentMetrics` (spec-modelled). -/
def fetchPaymentMetricsWrites (r : FetchRes PaymentFigures) : List SectionWrite :=
  match r with
  | .ok g => [.wReceivables g.totalReceivables, .wPayables g.totalPayables]
  | .noData => []
  | .failed => [.wPaymentNote "Failed to fetch payment data"]

/-- Backend outcomes of one dashboard collection: the stock section's
two fetches (from `report.go`) and one coarse outcome per spec-modelled
section. -/
structure DashboardFetch where
  items : FetchRes (List String)
  bins : FetchRes (List BinRow)
  purchase : FetchRes PurchaseFigures
  sales : FetchRes SalesFigures
  payments : FetchRes PaymentFigures
  system : FetchRes SystemFigures

def stockSectionWrites (f : DashboardFetch) : List SectionWrite :=
  fetchStockMetricsWrites f.items f.bins

def purchaseSectionWrites (f : DashboardFetch) : List SectionWrite :=
  fetchPurchaseMetricsWrites f.purchase

def systemSectionWrites (f : DashboardFetch) : List SectionWrite :=
  fetchSystemMetricsWrites f.system

def salesSectionWrites (f : DashboardFetch) : List SectionWrite :=
  fetchSalesMetricsWrites f.sales

def paymentSectionWrites (f : DashboardFetch) : List SectionWrite :=
  fetchPaymentMetricsWrites f.payments

/-- The goroutines started by one `loadDashboard` collection, as their
write sequences, in spawn order (`wg.Add(5)`: stock, purchasing,
system, sales, payments). -/
def loadDashboardWriteLists (f : DashboardFetch) : List (List SectionWrite) :=
  [stockSectionWrites f, purchaseSectionWrites f, systemSectionWrites f,
   salesSectionWrites f, paymentSectionWrites f]

/-- `Il a b c e p l`: `l` is an interleaving of the five per-task write
sequences (each task's own order is preserved; the mutex serialises the
writes in some global order `l`). -/
inductive Il : List SectionWrite → List SectionWrite → List SectionWrite →
    List SectionWrite → List SectionWrite → List SectionWrite → Prop where
  | nil : Il [] [] [] [] [] []
  | stock {a b c e p l} (w : SectionWrite) :
      Il a b c e p l → Il (w :: a) b c e p (w :: l)
  | purchase {a b c e p l} (w : SectionWrite) :
      Il a b c e p l → Il a (w :: b) c e p (w :: l)
  | system {a b c e p l} (w : SectionWrite) :
      Il a b c e p l → Il a b (w :: c) e p (w :: l)
  | sales {a b c e p l} (w : SectionWrite) :
      Il a b c e p l → Il a b c (w :: e) p (w :: l)
  | payment {a b c e p l} (w : SectionWrite) :
      Il a b c e p l → Il a b c e (w :: p) (w :: l)

/-- Final content of the shared record after a serialised write order. -/
def runWrites (l : List SectionWrite) : ReportData :=
  l.foldl applyWrite emptyReportData

set_option maxHeartbeats 1600000 in
theorem applyWrite_comm (d : ReportData) (w₁ w₂ : SectionWrite)
    (h : sectionId w₁ ≠ sectionId w₂) :
    applyWrite (applyWrite d w₁) w₂ = applyWrite (applyWrite d w₂) w₁ := by
  cases w₁ <;> cases w₂ <;> simp [sectionId] at h ⊢ <;> rfl

theorem foldl_applyWrite_comm (a : List SectionWrite) (x : SectionWrite)
    (h : ∀ w ∈ a, sectionId w ≠ sectionId x) (d : ReportData) :
    a.foldl applyWrite (applyWrite d x) = applyWrite (a.foldl applyWrite d) x := by
  induction a generalizing d with
  | nil => rfl
  | cons w ws ih =>
    have hw : sectionId w ≠ sectionId x := h w (List.mem_cons_self w ws)
    have hrest : ∀ w' ∈ ws, sectionId w' ≠ sectionId x :=
      fun w' hw' => h w' (List.mem_cons_of_mem w hw')
    calc (w :: ws).foldl applyWrite (applyWrite d x)
        = ws.foldl applyWrite (applyWrite (applyWrite d x) w) := rfl
      _ = ws.foldl applyWrite (applyWrite (applyWrite d w) x) := by
            rw [applyWrite_comm d x w (fun he => hw he.symm)]
      _ = applyWrite (ws.foldl applyWrite (applyWrite d w)) x := ih hrest _
      _ = applyWrite ((w :: ws).foldl applyWrite d) x := rfl

/-- Serialisation: any interleaving of the five section write sequences
computes the same record as running them sequentially. -/
theorem il_foldl {a b c e p l : List SectionWrite} (h : Il a b c e p l) :
    (∀ w ∈ a, sectionId w = 1) → (∀ w ∈ b, sectionId w = 2) →
    (∀ w ∈ c, sectionId w = 3) → (∀ w ∈ e, sectionId w = 4) →
    (∀ w ∈ p, sectionId w = 5) → ∀ d : ReportData,
    l.foldl applyWrite d = ((a ++ b ++ c ++ e ++ p).foldl applyWrite d) := by
  induction h with
  | nil => intro _ _ _ _ _ _; rfl
  | @stock a b c e p l w h ih =>
    intro ha hb hc he hp d
    have ha' : ∀ w' ∈ a, sectionId w' = 1 :=
      fun w' hw' => ha w' (List.mem_cons_of_mem w hw')
    show l.foldl applyWrite (applyWrite d w) =
      (((w :: a) ++ b ++ c ++ e ++ p).foldl applyWrite d)
    rw [ih ha' hb hc he hp (applyWrite d w)]
    rfl
  | @purchase a b c e p l w h ih =>
    intro ha hb hc he hp d
    have hb' : ∀ w' ∈ b, sectionId w' = 2 :=
      fun w' hw' => hb w' (List.mem_cons_of_mem w hw')
    have hw2 : sectionId w = 2 := hb w (List.mem_cons_self w b)
    have hwa : ∀ w' ∈ a, sectionId w' ≠ sectionId w :=
      fun w' hw' => by rw [ha w' hw', hw2]; decide
    show l.foldl applyWrite (applyWrite d w) =
      ((a ++ (w :: b) ++ c ++ e ++ p).foldl applyWrite d)
    rw [ih ha hb' hc he hp (applyWrite d w)]
    simp only [List.foldl_append, List.foldl_cons]
    rw [foldl_applyWrite_comm a w hwa]
  | @system a b c e p l w h ih =>
    intro ha hb hc he hp d
    have hc' : ∀ w' ∈ c, sectionId w' = 3 :=
      fun w' hw' => hc w' (List.mem_cons_of_mem w hw')
    have hw3 : sectionId w = 3 := hc w (List.mem_cons_self w c)
    have hwa : ∀ w' ∈ a, sectionId w' ≠ sectionId w :=
      fun w' hw' => by rw [ha w' hw', hw3]; decide
    have hwb : ∀ w' ∈ b, sectionId w' ≠ sectionId w :=
      fun w' hw' => by rw [hb w' hw', hw3]; decide
    show l.foldl applyWrite (applyWrite d w) =
      ((a ++ b ++ (w :: c) ++ e ++ p).foldl applyWrite d)
    rw [ih ha hb hc' he hp (applyWrite d w)]
    simp only [List.foldl_append, List.foldl_cons]
    rw [foldl_applyWrite_comm a w hwa, foldl_applyWrite_comm b w hwb]
  | @sales a b c e p l w h ih =>
    intro ha hb hc he hp d
    have he' : ∀ w' ∈ e, sectionId w' = 4 :=
      fun w' hw' => he w' (List.mem_cons_of_mem w hw')
    have hw4 : sectionId w = 4 := he w (List.mem_cons_self w e)
    have hwa : ∀ w' ∈ a, sectionId w' ≠ sectionId w :=
      fun w' hw' => by rw [ha w' hw', hw4]; decide
    have hwb : ∀ w' ∈ b, sectionId w' ≠ sectionId w :=
      fun w' hw' => by rw [hb w' hw', hw4]; decide
    have hwc : ∀ w' ∈ c, sectionId w' ≠ sectionId w :=
      fun w' hw' => by rw [hc w' hw', hw4]; decide
    show l.foldl applyWrite (applyWrite d w) =
      ((a ++ b ++ c ++ (w :: e) ++ p).foldl applyWrite d)
    rw [ih ha hb hc he' hp (applyWrite d w)]
    simp only [List.foldl_append, List.foldl_cons]
    rw [foldl_applyWrite_comm a w hwa, foldl_applyWrite_comm b w hwb,
        foldl_applyWrite_comm c w hwc]
  | @payment a b c e p l w h ih =>
    intro ha hb hc he hp d
    have hp' : ∀ w' ∈ p, sectionId w' = 5 :=
      fun w' hw' => hp w' (List.mem_cons_of_mem w hw')
    have hw5 : sectionId w = 5 := hp w (List.mem_cons_self w p)
    have hwa : ∀ w' ∈ a, sectionId w' ≠ sectionId w :=
      fun w' hw' => by rw [ha w' hw', hw5]; decide
    have hwb : ∀ w' ∈ b, sectionId w' ≠ sectionId w :=
      fun w' hw' => by rw [hb w' hw', hw5]; decide
    have hwc : ∀ w' ∈ c, sectionId w' ≠ sectionId w :=
      fun w' hw' => by rw [hc w' hw', hw5]; decide
    have hwe : ∀ w' ∈ e, sectionId w' ≠ sectionId w :=
      fun w' hw' => by rw [he w' hw', hw5]; decide
    show l.foldl applyWrite (applyWrite d w) =
      ((a ++ b ++ c ++ e ++ (w :: p)).foldl applyWrite d)
    rw [ih ha hb hc he hp' (applyWrite d w)]
    simp only [List.foldl_append, List.foldl_cons]
    rw [foldl_applyWrite_comm a w hwa, foldl_applyWrite_comm b w hwb,
        foldl_applyWrite_comm c w hwc, foldl_applyWrite_comm e w hwe]

theorem fetchStockMetricsWrites_sectionId (items : FetchRes (List String))
    (bins : FetchRes (List BinRow)) :
    ∀ w ∈ fetchStockMetricsWrites items bins, sectionId w = 1 := by
  cases items <;> cases bins <;> simp [fetchStockMetricsWrites, sectionId]

theorem fetchPurchaseMetricsWrites_sectionId (r : FetchRes PurchaseFigures) :
    ∀ w ∈ fetchPurchaseMetricsWrites r, sectionId w = 2 := by
  cases r <;> simp [fetchPurchaseMetricsWrites, sectionId]

theorem fetchSystemMetricsWrites_sectionId (r : FetchRes SystemFigures) :
    ∀ w ∈ fetchSystemMetricsWrites r, sectionId w = 3 := by
  cases r <;> simp [fetchSystemMetricsWrites, sectionId]

theorem fetchSalesMetricsWrites_sectionId (r : FetchRes SalesFigures) :
    ∀ w ∈ fetchSalesMetricsWrites r, sectionId w = 4 := by
  cases r <;> simp [fetchSalesMetricsWrites, sectionId]

theorem fetchPaymentMetricsWrites_sectionId (r : FetchRes PaymentFigures) :
    ∀ w ∈ fetchPaymentMetricsWrites r, sectionId w = 5 := by
  cases r <;> simp [fetchPaymentMetricsWrites, sectionId]

theorem stockSectionWrites_sectionId (f : DashboardFetch) :
    ∀ w ∈ stockSectionWrites f, sectionId w = 1 :=
  fetchStockMetricsWrites_sectionId f.items f.bins

theorem purchaseSectionWrites_sectionId (f : DashboardFetch) :
    ∀ w ∈ purchaseSectionWrites f, sectionId w = 2 :=
  fetchPurchaseMetricsWrites_sectionId f.purchase

theorem systemSectionWrites_sectionId (f : DashboardFetch) :
    ∀ w ∈ systemSectionWrites f, sectionId w = 3 :=
  fetchSystemMetricsWrites_sectionId f.system

theorem salesSectionWrites_sectionId (f : DashboardFetch) :
    ∀ w ∈ salesSectionWrites f, sectionId w = 4 :=
  fetchSalesMetricsWrites_sectionId f.sales

theorem paymentSectionWrites_sectionId (f : DashboardFetch) :
    ∀ w ∈ paymentSectionWrites f, sectionId w = 5 :=
  fetchPaymentMetricsWrites_sectionId f.payments

/-- The sequential (deterministic) merge of a dashboard collection. -/
def sequentialMerge (f : DashboardFetch) : ReportData :=
  ((stockSectionWrites f ++ purchaseSectionWrites f ++ systemSectionWrites f ++
    salesSectionWrites f ++ paymentSectionWrites f).foldl
    applyWrite emptyReportData)

theorem runWrites_eq_sequentialMerge (f : DashboardFetch) (l : List SectionWrite)
    (h : Il (stockSectionWrites f) (purchaseSectionWrites f) (systemSectionWrites f)
          (salesSectionWrites f) (paymentSectionWrites f) l) :
    runWrites l = sequentialMerge f :=
  il_foldl h (stockSectionWrites_sectionId f) (purchaseSectionWrites_sectionId f)
    (systemSectionWrites_sectionId f) (salesSectionWrites_sectionId f)
    (paymentSectionWrites_sectionId f) emptyReportData

/-! ## TUI data model (`tui.go`)

The Bubble Tea `Model` and its message/command vocabulary.  Component
state from the external `bubbles` library (list cursors, text inputs) is
modelled coarsely: a list keeps its items, cursor index and title; a
text input keeps its placeholder, value and focus flag. -/

/-- The `View` enumeration of `tui.go` (v1.7.2), in declaration order;
`ViewMain` is the Go zero value (`View = 0`). -/
inductive View where
  | ViewMain
  | ViewInventoryMenu
  | ViewStockMenu
  | ViewSalesMenu
  | ViewPurchasingMenu
  | ViewPaymentsMenu
  | ViewAttributes
  | ViewItems
  | ViewTemplates
  | ViewGroups
  | ViewBrands
  | ViewAttrDetail
  | ViewItemDetail
  | ViewCreateAttr
  | ViewCreateItem
  | ViewCreateTemplate
  | ViewConfirmDelete
  | ViewDashboard
  | ViewWarehouses
  | ViewStock
  | ViewStockDetail
  | ViewStockReceive
  | ViewStockTransfer
  | ViewStockIssue
  | ViewSerials
  | ViewSerialDetail
  | ViewCreateSerial
  | ViewSuppliers
  | ViewSupplierDetail
  | ViewCreateSupplier
  | ViewPurchaseOrders
  | ViewPODetail
  | ViewCreatePO
  | ViewAddPOItem
  | ViewPurchaseInvoices
  | ViewPIDetail
  | ViewCreatePI
  | ViewConfirmAction
  | ViewCustomers
  | ViewCustomerDetail
  | ViewCreateCustomer
  | ViewQuotations
  | ViewQuotationDetail
  | ViewCreateQuotation
  | ViewAddQuotationItem
  | ViewSalesOrders
  | ViewSODetail
  | ViewCreateSO
  | ViewCreateSOFromQuotation
  | ViewAddSOItem
  | ViewSalesInvoices
  | ViewSIDetail
  | ViewCreateSalesInvoice
  | ViewDeliveryNotes
  | ViewDNDetail
  | ViewCreateDN
  | ViewPurchaseReceipts
  | ViewPRDetail
  | ViewCreatePR
  | ViewPayments
  | ViewPaymentDetail
  | ViewCreatePayment
  | ViewCreateGroup
  | ViewCreateBrand
  | ViewCreateWarehouse
  | ViewCreateVariant
  | ViewCreateAttrText
  | ViewCreateAttrNumeric
  | ViewCreateAttrSelect
  | ViewCreatePIFromPO
deriving DecidableEq

/-- Values read out of backend documents (`map[string]interface{}`).
Go float64 numbers are embedded as `Int`. -/
inductive GoVal where
  | str (s : String)
  | num (n : Int)
  | arr (xs : List GoVal)
  | obj (fields : List (String × GoVal))
  | null

/-- A loosely-typed backend document. -/
def Doc := List (String × GoVal)

/-- Field lookup, `m["k"]`; a missing key is Go `nil`. -/
def docGet (d : Doc) (k : String) : Option GoVal :=
  (d.find? (fun p => p.1 = k)).map (fun p => p.2)

/-- `fmt.Sprintf("%v", v)` for the cases the engine prints. -/
def goDisplay : GoVal → String
  | .str s => s
  | .num n => toString n
  | .arr _ => "[...]"
  | .obj _ => "map[...]"
  | .null => "<nil>"

/-- One `textinput.Model` of the bubbles library. -/
structure TextInput where
  placeholder : String
  value : String
  focused : Bool
deriving DecidableEq

def newInput (ph : String) : TextInput := ⟨ph, "", false⟩

def TextInput.focus (t : TextInput) : TextInput := { t with focused := true }

def TextInput.blur (t : TextInput) : TextInput := { t with focused := false }

def TextInput.setValue (t : TextInput) (s : String) : TextInput := { t with value := s }

/-- Coarse model of `textinput.Model.Update` on a key: a focused input
appends single-character keys and deletes on backspace; everything else
is ignored, as is any key on an unfocused input. -/
def TextInput.keyUpdate (t : TextInput) (k : String) : TextInput :=
  if t.focused ∧ k = "backspace" then { t with value := t.value.dropRight 1 }
  else if t.focused ∧ k.length = 1 then { t with value := t.value ++ k } else t

/-- `MenuItem` from `tui.go`. -/
structure MenuItem where
  title : String
  description : String
  view : View
deriving DecidableEq

/-- `ListItem` from `tui.go` (float64 `amount` as `Int`). -/
structure ListItem where
  name : String
  details : String
  amount : Int
  status : String
deriving DecidableEq

/-- Coarse model of a bubbles `list.Model`: items, cursor, title. -/
structure UIList (α : Type) where
  items : List α
  index : Nat
  title : String
deriving DecidableEq

/-- `list.Model.SelectedItem()`: `nil` when the list is empty / the
cursor is out of range. -/
def UIList.selectedItem {α : Type} (l : UIList α) : Option α :=
  l.items.get? l.index

/-- Coarse model of `list.Model.Update` on a key: cursor movement only
(clamped, as in bubbles). -/
def UIList.keyUpdate {α : Type} (l : UIList α) (k : String) : UIList α :=
  if k = "up" then { l with index := l.index - 1 }
  else if k = "down" then
    { l with index := if l.index + 1 < l.items.length then l.index + 1 else l.index }
  else l

/-- The `Model` of `tui.go` (fields relevant to the engine; width,
height, spinner and viewport are presentation-only and omitted, as is
the backend `client`). -/
structure Model where
  view : View
  prevView : View
  mainMenu : UIList MenuItem
  subMenu : UIList MenuItem
  currentList : UIList ListItem
  inputs : List TextInput
  focusIndex : Int
  message : String
  messageType : String
  loading : Bool
  selectedItem : String
  itemData : Option Doc
  dashboardData : Option ReportData
  formData : List (String × String)
  confirmAction : String
  confirmMsg : String
  listData : List Doc
  breadcrumbs : List String
  notification : String
  notificationType : String
  showNotification : Bool
  sortOrder : Nat
  listItems : List ListItem

/-- The messages consumed by `Model.Update` (window-resize and spinner
ticks are presentation-only and omitted).  A key press is identified by
its bubbletea `msg.String()`. -/
inductive Msg where
  | key (k : String)
  | connected (mode url user : String)
  | errorMsg (err : String)
  | dataLoaded (items : List ListItem)
  | itemDetail (data : Doc)
  | actionDone (message : String)
  | dashboardLoaded (data : ReportData)
  | stockData (items : List Doc)
  | formSubmitted (success : Bool) (message : String)
  | clearNotification

/-- The background commands (`tea.Cmd`) the engine dispatches, named
after the Go functions that build them.  `submitForm` records which
form's submit closure was dispatched together with the captured inputs;
`tickClearNotification` is the `tea.Tick(3*time.Second, …)` timer. -/
inductive Task where
  | quit
  | detectConnection
  | loadAttributes
  | loadItems (templatesOnly : Bool)
  | loadGroups
  | loadBrands
  | loadDashboard
  | loadWarehouses
  | loadStock
  | loadSerials (itemCode : String)
  | loadSuppliers
  | loadPurchaseOrders
  | loadPurchaseInvoices
  | loadCustomers
  | loadQuotations
  | loadSalesOrders
  | loadSalesInvoices
  | loadDeliveryNotes
  | loadPurchaseReceipts
  | loadPayments
  | loadAttrDetail (name : String)
  | loadItemDetail (code : String)
  | loadStockDetail (itemCode : String)
  | loadSerialDetail (serialNo : String)
  | loadSupplierDetail (name : String)
  | loadPODetail (name : String)
  | loadPIDetail (name : String)
  | loadCustomerDetail (name : String)
  | loadQuotationDetail (name : String)
  | loadSODetail (name : String)
  | loadSIDetail (name : String)
  | loadDNDetail (name : String)
  | loadPRDetail (name : String)
  | loadPaymentDetail (name : String)
  | deleteItem (itemType name : String)
  | deleteSupplier (name : String)
  | deleteSerial (serialNo : String)
  | deleteCustomer (name : String)
  | submitPO (name : String)
  | cancelPO (name : String)
  | submitPI (name : String)
  | cancelPI (name : String)
  | submitQuotation (name : String)
  | cancelQuotation (name : String)
  | submitSO (name : String)
  | cancelSO (name : String)
  | submitSI (name : String)
  | cancelSI (name : String)
  | submitDN (name : String)
  | cancelDN (name : String)
  | submitPR (name : String)
  | cancelPR (name : String)
  | submitPayment (name : String)
  | cancelPayment (name : String)
  | submitForm (form : View) (inputs : List TextInput)
  | tickClearNotification (seconds : Nat)

/-- The `cmd != nil` checks of the key switch only test emptiness. -/
instance (priority := low) listEmptyDec {α : Type} (l : List α) : Decidable (l = []) :=
  match l with
  | [] => isTrue rfl
  | _ :: _ => isFalse (by simp)

/-! ## Initial model and form constructors -/

/-- The six main-menu entries created in `NewTUI`. -/
def menuItems : List MenuItem :=
  [⟨"Dashboard", "Executive summary & KPIs", .ViewDashboard⟩,
   ⟨"Inventory", "Items, Templates, Groups, Brands, Attributes", .ViewInventoryMenu⟩,
   ⟨"Stock", "Warehouses, Stock Levels, Serial Numbers", .ViewStockMenu⟩,
   ⟨"Sales", "Customers, Quotations, Orders, Invoices, Delivery", .ViewSalesMenu⟩,
   ⟨"Purchasing", "Suppliers, POs, Invoices, Receipts", .ViewPurchasingMenu⟩,
   ⟨"Payments", "Receive & Pay invoices", .ViewPaymentsMenu⟩]

/-- `NewTUI`: the initial model.  `prevView` is the Go zero value
(`ViewMain`); the main-menu title comes from the external client
configuration and is abstracted. -/
def NewTUI : Model where
  view := .ViewMain
  prevView := .ViewMain
  mainMenu := ⟨menuItems, 0, "ERPNext"⟩
  subMenu := ⟨[], 0, ""⟩
  currentList := ⟨[], 0, ""⟩
  inputs := []
  focusIndex := 0
  message := ""
  messageType := ""
  loading := true
  selectedItem := ""
  itemData := none
  dashboardData := none
  formData := []
  confirmAction := ""
  confirmMsg := ""
  listData := []
  breadcrumbs := ["Main"]
  notification := ""
  notificationType := ""
  showNotification := false
  sortOrder := 0
  listItems := []

/-- `createSubMenu`. -/
def createSubMenu (m : Model) (title : String) (items : List MenuItem) : Model :=
  { m with subMenu := ⟨items, 0, title⟩ }

/-- `Model.isListView`: list views that support sorting and totals. -/
def isListView (m : Model) : Bool :=
  match m.view with
  | .ViewPurchaseOrders | .ViewPurchaseInvoices | .ViewPurchaseReceipts
  | .ViewSalesOrders | .ViewSalesInvoices | .ViewQuotations | .ViewDeliveryNotes
  | .ViewPayments => true
  | _ => false

/-- Go map assignment on `formData`. -/
def mapSet (fd : List (String × String)) (k v : String) : List (String × String) :=
  (k, v) :: fd.filter (fun p => p.1 != k)

/-- Read a `float64` field of `itemData` (`nil`-safe, as the Go
type-assertion pattern `v, ok := m.itemData[f].(float64)`). -/
def itemDataNum (m : Model) (field : String) : Option Int :=
  match m.itemData with
  | some d =>
    match docGet d field with
    | some (.num v) => some v
    | _ => none
  | none => none

def setInputValue (m : Model) (i : Nat) (v : String) : Model :=
  match m.inputs.get? i with
  | some t => { m with inputs := m.inputs.set i (t.setValue v) }
  | none => m

def initCreateSupplierForm (m : Model) : Model :=
  { m with
    inputs := [(newInput "Supplier Name").focus,
               newInput "Supplier Group (optional)",
               newInput "Country (optional)"],
    focusIndex := 0 }

def initCreatePOForm (m : Model) : Model :=
  { m with inputs := [(newInput "Supplier Name").focus], focusIndex := 0 }

def initAddPOItemForm (m : Model) : Model :=
  { m with
    inputs := [(newInput "Item Code").focus,
               newInput "Quantity",
               newInput "Rate (optional)"],
    focusIndex := 0 }

def initCreatePIForm (m : Model) : Model :=
  { m with
    inputs := [(newInput "Purchase Order Name (e.g., PUR-ORD-2025-00001)").focus],
    focusIndex := 0 }

def initStockReceiveForm (m : Model) : Model :=
  { m with
    inputs := [((newInput "Item Code").focus).setValue m.selectedItem,
               newInput "Quantity",
               newInput "Warehouse",
               newInput "Rate (optional)"],
    focusIndex := 1 }

def initStockTransferForm (m : Model) : Model :=
  { m with
    inputs := [((newInput "Item Code").focus).setValue m.selectedItem,
               newInput "Quantity",
               newInput "From Warehouse",
               newInput "To Warehouse"],
    focusIndex := 1 }

def initStockIssueForm (m : Model) : Model :=
  { m with
    inputs := [((newInput "Item Code").focus).setValue m.selectedItem,
               newInput "Quantity",
               newInput "Warehouse"],
    focusIndex := 1 }

def initCreateSerialForm (m : Model) : Model :=
  { m with
    inputs := [(newInput "Serial Number").focus,
               newInput "Item Code",
               newInput "Supplier (optional)"],
    focusIndex := 0 }

def initCreateCustomerForm (m : Model) : Model :=
  { m with
    inputs := [(newInput "Customer Name").focus,
               newInput "Customer Group (optional)",
               newInput "Territory (optional)"],
    focusIndex := 0 }

def initCreateQuotationForm (m : Model) : Model :=
  { m with inputs := [(newInput "Customer Name").focus], focusIndex := 0 }

def initAddQuotationItemForm (m : Model) : Model :=
  { m with
    inputs := [(newInput "Item Code").focus,
               newInput "Quantity",
               newInput "Rate (optional)"],
    focusIndex := 0 }

def initCreateSOForm (m : Model) : Model :=
  { m with inputs := [(newInput "Customer Name").focus], focusIndex := 0 }

def initCreateSOFromQuotationForm (m : Model) : Model :=
  { m with inputs := [(newInput "Quotation Name (e.g., QTN-00001)").focus], focusIndex := 0 }

def initAddSOItemForm (m : Model) : Model :=
  { m with
    inputs := [(newInput "Item Code").focus,
               newInput "Quantity",
               newInput "Rate (optional)"],
    focusIndex := 0 }

def initCreateSIForm (m : Model) : Model :=
  { m with
    inputs := [(newInput "Sales Order Name (e.g., SAL-ORD-2025-00001)").focus],
    focusIndex := 0 }

def initCreateDNForm (m : Model) : Model :=
  { m with
    inputs := [(newInput "Sales Order Name (e.g., SAL-ORD-2025-00001)").focus],
    focusIndex := 0 }

def initCreatePaymentForm (m : Model) (invoiceName paymentType : String) : Model :=
  let ph := if paymentType = "Receive" then "Sales Invoice Name" else "Purchase Invoice Name"
  { m with
    inputs := [((newInput ph).setValue invoiceName).focus,
               newInput "Amount (leave empty for full amount)"],
    focusIndex := 0,
    formData := mapSet m.formData "payment_type" paymentType }

def initCreateGroupForm (m : Model) : Model :=
  { m with
    inputs := [(newInput "Group Name *").focus, newInput "Parent Group (optional)"],
    focusIndex := 0 }

def initCreateBrandForm (m : Model) : Model :=
  { m with
    inputs := [(newInput "Brand Name *").focus, newInput "Description (optional)"],
    focusIndex := 0 }

def initCreateWarehouseForm (m : Model) : Model :=
  { m with
    inputs := [(newInput "Warehouse Name *").focus, newInput "Parent Warehouse (optional)"],
    focusIndex := 0 }

/-- `initCreateVariantForm`: one input per template attribute (at least
one input); the placeholder of the i-th input comes from the template's
i-th attribute record. -/
def initCreateVariantForm (m : Model) : Model :=
  let attrs : List GoVal :=
    match m.itemData with
    | some d => match docGet d "attributes" with | some (.arr xs) => xs | _ => []
    | none => []
  let numAttrs := if attrs.length = 0 then 1 else attrs.length
  let inputs := (List.range numAttrs).map (fun i =>
    let ph :=
      match attrs.get? i with
      | some (.obj a) => goDisplay ((docGet a "attribute").getD .null) ++ " value *"
      | _ => ""
    let t := newInput ph
    if i = 0 then t.focus else t)
  { m with inputs := inputs, focusIndex := 0 }

def initCreateAttrForm (m : Model) (attrType : String) : Model :=
  if attrType = "text" then
    { m with
      inputs := [(newInput "Attribute Name *").focus,
                 newInput "Values (comma separated) *"],
      formData := mapSet m.formData "attr_type" "text",
      focusIndex := 0 }
  else if attrType = "numeric" then
    { m with
      inputs := [(newInput "Attribute Name *").focus,
                 newInput "From Range *",
                 newInput "To Range *",
                 newInput "Increment *"],
      formData := mapSet m.formData "attr_type" "numeric",
      focusIndex := 0 }
  else if attrType = "select" then
    { m with
      inputs := [(newInput "Attribute Name *").focus,
                 newInput "Values (comma separated) *"],
      formData := mapSet m.formData "attr_type" "select",
      focusIndex := 0 }
  else { m with focusIndex := 0 }

def initCreatePIFromPOForm (m : Model) : Model :=
  { m with
    inputs := [(((newInput "Purchase Order Name").setValue m.selectedItem)).focus],
    focusIndex := 0 }

/-! ## Key handlers

All four `handle*Keys` functions are `*Model` pointer methods in Go: the
model mutation survives even though every branch returns a `nil`
command, which is why `Update`'s `if cmd != nil` guards after these
calls never fire. -/

/-- `Model.handleInventoryKeys`. -/
def handleInventoryKeys (m : Model) (k : String) : Model × List Task :=
  match m.view with
  | .ViewAttributes =>
    if k = "n" then
      let m1 := initCreateAttrForm m "text"
      ({ m1 with prevView := m1.view, view := .ViewCreateAttrText }, [])
    else (m, [])
  | .ViewGroups =>
    if k = "n" then
      let m1 := initCreateGroupForm m
      ({ m1 with prevView := m1.view, view := .ViewCreateGroup }, [])
    else (m, [])
  | .ViewBrands =>
    if k = "n" then
      let m1 := initCreateBrandForm m
      ({ m1 with prevView := m1.view, view := .ViewCreateBrand }, [])
    else (m, [])
  | .ViewWarehouses =>
    if k = "n" then
      let m1 := initCreateWarehouseForm m
      ({ m1 with prevView := m1.view, view := .ViewCreateWarehouse }, [])
    else (m, [])
  | _ => (m, [])

/-- `Model.handlePurchasingKeys`. -/
def handlePurchasingKeys (m : Model) (k : String) : Model × List Task :=
  match m.view with
  | .ViewSuppliers =>
    if k = "n" then ({ initCreateSupplierForm m with view := .ViewCreateSupplier }, [])
    else if k = "d" then
      match m.currentList.selectedItem with
      | some item =>
        ({ m with selectedItem := item.name, prevView := m.view, view := .ViewConfirmDelete }, [])
      | none => (m, [])
    else (m, [])
  | .ViewPurchaseOrders =>
    if k = "n" then ({ initCreatePOForm m with view := .ViewCreatePO }, [])
    else (m, [])
  | .ViewPODetail =>
    if k = "a" then
      if itemDataNum m "docstatus" = some 0 then
        ({ initAddPOItemForm m with view := .ViewAddPOItem }, [])
      else (m, [])
    else if k = "s" then
      if itemDataNum m "docstatus" = some 0 then
        ({ m with confirmAction := "submit_po",
                  confirmMsg := "Submit PO " ++ m.selectedItem ++ "?",
                  prevView := m.view, view := .ViewConfirmAction }, [])
      else (m, [])
    else if k = "x" then
      if itemDataNum m "docstatus" = some 1 then
        ({ m with confirmAction := "cancel_po",
                  confirmMsg := "Cancel PO " ++ m.selectedItem ++ "?",
                  prevView := m.view, view := .ViewConfirmAction }, [])
      else (m, [])
    else (m, [])
  | .ViewPurchaseInvoices =>
    if k = "n" then ({ initCreatePIForm m with view := .ViewCreatePI }, [])
    else (m, [])
  | .ViewPIDetail =>
    if k = "s" then
      if itemDataNum m "docstatus" = some 0 then
        ({ m with confirmAction := "submit_pi",
                  confirmMsg := "Submit Invoice " ++ m.selectedItem ++ "?",
                  prevView := m.view, view := .ViewConfirmAction }, [])
      else (m, [])
    else if k = "x" then
      if itemDataNum m "docstatus" = some 1 then
        ({ m with confirmAction := "cancel_pi",
                  confirmMsg := "Cancel Invoice " ++ m.selectedItem ++ "?",
                  prevView := m.view, view := .ViewConfirmAction }, [])
      else (m, [])
    else (m, [])
  | _ => (m, [])

/-- `Model.handleStockKeys`. -/
def handleStockKeys (m : Model) (k : String) : Model × List Task :=
  match m.view with
  | .ViewStock =>
    if k = "r" then
      match m.currentList.selectedItem with
      | some item =>
        let m1 := initStockReceiveForm { m with selectedItem := item.name }
        ({ m1 with view := .ViewStockReceive }, [])
      | none => (m, [])
    else if k = "t" then
      match m.currentList.selectedItem with
      | some item =>
        let m1 := initStockTransferForm { m with selectedItem := item.name }
        ({ m1 with view := .ViewStockTransfer }, [])
      | none => (m, [])
    else if k = "i" then
      match m.currentList.selectedItem with
      | some item =>
        let m1 := initStockIssueForm { m with selectedItem := item.name }
        ({ m1 with view := .ViewStockIssue }, [])
      | none => (m, [])
    else (m, [])
  | .ViewStockDetail =>
    if k = "r" then ({ initStockReceiveForm m with view := .ViewStockReceive }, [])
    else if k = "t" then ({ initStockTransferForm m with view := .ViewStockTransfer }, [])
    else if k = "i" then ({ initStockIssueForm m with view := .ViewStockIssue }, [])
    else (m, [])
  | .ViewSerials =>
    if k = "n" then ({ initCreateSerialForm m with view := .ViewCreateSerial }, [])
    else if k = "d" then
      match m.currentList.selectedItem with
      | some item =>
        ({ m with selectedItem := item.name, prevView := m.view, view := .ViewConfirmDelete }, [])
      | none => (m, [])
    else (m, [])
  | _ => (m, [])

/-- `Model.handleSalesKeys`. -/
def handleSalesKeys (m : Model) (k : String) : Model × List Task :=
  match m.view with
  | .ViewCustomers =>
    if k = "n" then ({ initCreateCustomerForm m with view := .ViewCreateCustomer }, [])
    else if k = "d" then
      match m.currentList.selectedItem with
      | some item =>
        ({ m with selectedItem := item.name, prevView := m.view, view := .ViewConfirmDelete }, [])
      | none => (m, [])
    else (m, [])
  | .ViewQuotations =>
    if k = "n" then ({ initCreateQuotationForm m with view := .ViewCreateQuotation }, [])
    else (m, [])
  | .ViewQuotationDetail =>
    if k = "a" then
      if itemDataNum m "docstatus" = some 0 then
        ({ initAddQuotationItemForm m with view := .ViewAddQuotationItem }, [])
      else (m, [])
    else if k = "s" then
      if itemDataNum m "docstatus" = some 0 then
        ({ m with confirmAction := "submit_quotation",
                  confirmMsg := "Submit Quotation " ++ m.selectedItem ++ "?",
                  prevView := m.view, view := .ViewConfirmAction }, [])
      else (m, [])
    else if k = "x" then
      if itemDataNum m "docstatus" = some 1 then
        ({ m with confirmAction := "cancel_quotation",
                  confirmMsg := "Cancel Quotation " ++ m.selectedItem ++ "?",
                  prevView := m.view, view := .ViewConfirmAction }, [])
      else (m, [])
    else if k = "o" then
      if itemDataNum m "docstatus" = some 1 then
        let m1 := setInputValue (initCreateSOFromQuotationForm m) 0 m.selectedItem
        ({ m1 with view := .ViewCreateSOFromQuotation }, [])
      else (m, [])
    else (m, [])
  | .ViewSalesOrders =>
    if k = "n" then ({ initCreateSOForm m with view := .ViewCreateSO }, [])
    else if k = "q" then
      ({ initCreateSOFromQuotationForm m with view := .ViewCreateSOFromQuotation }, [])
    else (m, [])
  | .ViewSODetail =>
    if k = "a" then
      if itemDataNum m "docstatus" = some 0 then
        ({ initAddSOItemForm m with view := .ViewAddSOItem }, [])
      else (m, [])
    else if k = "s" then
      if itemDataNum m "docstatus" = some 0 then
        ({ m with confirmAction := "submit_so",
                  confirmMsg := "Submit SO " ++ m.selectedItem ++ "?",
                  prevView := m.view, view := .ViewConfirmAction }, [])
      else (m, [])
    else if k = "x" then
      if itemDataNum m "docstatus" = some 1 then
        ({ m with confirmAction := "cancel_so",
                  confirmMsg := "Cancel SO " ++ m.selectedItem ++ "?",
                  prevView := m.view, view := .ViewConfirmAction }, [])
      else (m, [])
    else if k = "i" then
      if itemDataNum m "docstatus" = some 1 then
        let m1 := setInputValue (initCreateSIForm m) 0 m.selectedItem
        ({ m1 with view := .ViewCreateSalesInvoice }, [])
      else (m, [])
    else if k = "r" then
      if itemDataNum m "docstatus" = some 1 then
        let m1 := setInputValue (initCreateDNForm m) 0 m.selectedItem
        ({ m1 with view := .ViewCreateDN }, [])
      else (m, [])
    else (m, [])
  | .ViewDeliveryNotes =>
    if k = "n" then ({ initCreateDNForm m with view := .ViewCreateDN }, [])
    else (m, [])
  | .ViewDNDetail =>
    if k = "s" then
      if itemDataNum m "docstatus" = some 0 then
        ({ m with confirmAction := "submit_dn",
                  confirmMsg := "Submit Delivery Note " ++ m.selectedItem ++ "?",
                  prevView := m.view, view := .ViewConfirmAction }, [])
      else (m, [])
    else if k = "x" then
      if itemDataNum m "docstatus" = some 1 then
        ({ m with confirmAction := "cancel_dn",
                  confirmMsg := "Cancel Delivery Note " ++ m.selectedItem ++ "?",
                  prevView := m.view, view := .ViewConfirmAction }, [])
      else (m, [])
    else (m, [])
  | .ViewSalesInvoices =>
    if k = "n" then ({ initCreateSIForm m with view := .ViewCreateSalesInvoice }, [])
    else (m, [])
  | .ViewSIDetail =>
    if k = "s" then
      if itemDataNum m "docstatus" = some 0 then
        ({ m with confirmAction := "submit_si",
                  confirmMsg := "Submit Invoice " ++ m.selectedItem ++ "?",
                  prevView := m.view, view := .ViewConfirmAction }, [])
      else (m, [])
    else if k = "x" then
      if itemDataNum m "docstatus" = some 1 then
        ({ m with confirmAction := "cancel_si",
                  confirmMsg := "Cancel Invoice " ++ m.selectedItem ++ "?",
                  prevView := m.view, view := .ViewConfirmAction }, [])
      else (m, [])
    else if k = "p" then
      if itemDataNum m "docstatus" = some 1 then
        match itemDataNum m "outstanding_amount" with
        | some amt =>
          if amt > 0 then
            let m1 := initCreatePaymentForm m m.selectedItem "Receive"
            ({ m1 with prevView := m1.view, view := .ViewCreatePayment }, [])
          else (m, [])
        | none => (m, [])
      else (m, [])
    else (m, [])
  | .ViewPaymentDetail =>
    if k = "s" then
      if itemDataNum m "docstatus" = some 0 then
        ({ m with confirmAction := "submit_payment",
                  confirmMsg := "Submit Payment " ++ m.selectedItem ++ "?",
                  prevView := m.view, view := .ViewConfirmAction }, [])
      else (m, [])
    else if k = "x" then
      if itemDataNum m "docstatus" = some 1 then
        ({ m with confirmAction := "cancel_payment",
                  confirmMsg := "Cancel Payment " ++ m.selectedItem ++ "?",
                  prevView := m.view, view := .ViewConfirmAction }, [])
      else (m, [])
    else (m, [])
  | _ => (m, [])

/-- The `switch m.confirmAction` of `handleConfirmAction`: it only
selects the dispatched command. -/
def confirmActionTask (action target : String) : List Task :=
  if action = "submit_po" then [.submitPO target]
  else if action = "cancel_po" then [.cancelPO target]
  else if action = "submit_pi" then [.submitPI target]
  else if action = "cancel_pi" then [.cancelPI target]
  else if action = "submit_quotation" then [.submitQuotation target]
  else if action = "cancel_quotation" then [.cancelQuotation target]
  else if action = "submit_so" then [.submitSO target]
  else if action = "cancel_so" then [.cancelSO target]
  else if action = "submit_si" then [.submitSI target]
  else if action = "cancel_si" then [.cancelSI target]
  else if action = "submit_dn" then [.submitDN target]
  else if action = "cancel_dn" then [.cancelDN target]
  else if action = "submit_pr" then [.submitPR target]
  else if action = "cancel_pr" then [.cancelPR target]
  else if action = "submit_payment" then [.submitPayment target]
  else if action = "cancel_payment" then [.cancelPayment target]
  else []

/-- `Model.handleConfirmAction`: a negative answer restores
`prevView`; an affirmative one sets `loading`, restores `prevView`
and dispatches the pending action's command. -/
def handleConfirmAction (m : Model) (confirmed : Bool) : Model × List Task :=
  if ¬ confirmed then ({ m with view := m.prevView }, [])
  else
    ({ m with loading := true, view := m.prevView },
     confirmActionTask m.confirmAction m.selectedItem)

/-- `Model.handleDeleteForView`. -/
def handleDeleteForView (m : Model) : List Task :=
  match m.prevView with
  | .ViewAttributes => [.deleteItem "attr" m.selectedItem]
  | .ViewItems => [.deleteItem "item" m.selectedItem]
  | .ViewTemplates => [.deleteItem "template" m.selectedItem]
  | .ViewGroups => [.deleteItem "group" m.selectedItem]
  | .ViewBrands => [.deleteItem "brand" m.selectedItem]
  | .ViewSuppliers => [.deleteSupplier m.selectedItem]
  | .ViewSerials => [.deleteSerial m.selectedItem]
  | .ViewCustomers => [.deleteCustomer m.selectedItem]
  | _ => []

/-! ## List titles, refresh, navigation -/

/-- `Model.getSortOrderLabel`. -/
def getSortOrderLabel (m : Model) : String :=
  match m.sortOrder with
  | 0 => "↓Date"
  | 1 => "↑Date"
  | 2 => "Name"
  | 3 => "↓Total"
  | _ => ""

def listTitleBase (v : View) : String :=
  match v with
  | .ViewAttributes => "Attributes"
  | .ViewItems => "Items"
  | .ViewTemplates => "Templates"
  | .ViewGroups => "Groups"
  | .ViewBrands => "Brands"
  | .ViewWarehouses => "Warehouses"
  | .ViewStock => "Stock"
  | .ViewSerials => "Serial Numbers"
  | .ViewSuppliers => "Suppliers"
  | .ViewPurchaseOrders => "Purchase Orders"
  | .ViewPurchaseInvoices => "Purchase Invoices"
  | .ViewCustomers => "Customers"
  | .ViewQuotations => "Quotations"
  | .ViewSalesOrders => "Sales Orders"
  | .ViewSalesInvoices => "Sales Invoices"
  | .ViewDeliveryNotes => "Delivery Notes"
  | .ViewPurchaseReceipts => "Purchase Receipts"
  | .ViewPayments => "Payments"
  | _ => ""

/-- `Model.setListTitle`. -/
def setListTitle (m : Model) : Model :=
  let title := listTitleBase m.view
  let title :=
    if isListView m ∧ getSortOrderLabel m ≠ "" then
      title ++ " (" ++ getSortOrderLabel m ++ ")"
    else title
  { m with currentList := { m.currentList with title := title } }

/-- `Model.refreshCurrentView`: unconditionally sets `loading = true`,
then dispatches the loader of the current view; any view outside the
switch falls through and dispatches nothing. -/
def refreshCurrentView (m : Model) : Model × List Task :=
  let m := { m with loading := true }
  match m.view with
  | .ViewAttributes => (m, [.loadAttributes])
  | .ViewItems => (m, [.loadItems false])
  | .ViewTemplates => (m, [.loadItems true])
  | .ViewGroups => (m, [.loadGroups])
  | .ViewBrands => (m, [.loadBrands])
  | .ViewDashboard => (m, [.loadDashboard])
  | .ViewWarehouses => (m, [.loadWarehouses])
  | .ViewStock => (m, [.loadStock])
  | .ViewSerials => (m, [.loadSerials ""])
  | .ViewSuppliers => (m, [.loadSuppliers])
  | .ViewPurchaseOrders => (m, [.loadPurchaseOrders])
  | .ViewPurchaseInvoices => (m, [.loadPurchaseInvoices])
  | .ViewCustomers => (m, [.loadCustomers])
  | .ViewQuotations => (m, [.loadQuotations])
  | .ViewSalesOrders => (m, [.loadSalesOrders])
  | .ViewSalesInvoices => (m, [.loadSalesInvoices])
  | .ViewDeliveryNotes => (m, [.loadDeliveryNotes])
  | .ViewPurchaseReceipts => (m, [.loadPurchaseReceipts])
  | .ViewPayments => (m, [.loadPayments])
  | _ => (m, [])

/-- The views `refreshCurrentView` actually refreshes. -/
def isRefreshableView (v : View) : Bool :=
  match v with
  | .ViewAttributes | .ViewItems | .ViewTemplates | .ViewGroups | .ViewBrands
  | .ViewDashboard | .ViewWarehouses | .ViewStock | .ViewSerials | .ViewSuppliers
  | .ViewPurchaseOrders | .ViewPurchaseInvoices | .ViewCustomers | .ViewQuotations
  | .ViewSalesOrders | .ViewSalesInvoices | .ViewDeliveryNotes
  | .ViewPurchaseReceipts | .ViewPayments => true
  | _ => false

/-- The repeated esc-from-detail block: restore the list view and
truncate the breadcrumbs to the first two labels when they are longer. -/
def escDetail (m : Model) (target : View) : Model :=
  let m := { m with view := target }
  if m.breadcrumbs.length > 2 then { m with breadcrumbs := m.breadcrumbs.take 2 } else m

/-- The `esc` case of `Model.Update`. -/
def escUpdate (m : Model) : Model :=
  match m.view with
  | .ViewMain => m
  | .ViewInventoryMenu | .ViewStockMenu | .ViewSalesMenu
  | .ViewPurchasingMenu | .ViewPaymentsMenu =>
    { m with view := .ViewMain, breadcrumbs := ["Main"] }
  | .ViewAttrDetail => escDetail m .ViewAttributes
  | .ViewItemDetail =>
    escDetail m (if m.prevView = .ViewTemplates then .ViewTemplates else .ViewItems)
  | .ViewStockDetail => escDetail m .ViewStock
  | .ViewSerialDetail => escDetail m .ViewSerials
  | .ViewSupplierDetail => escDetail m .ViewSuppliers
  | .ViewPODetail => escDetail m .ViewPurchaseOrders
  | .ViewPIDetail => escDetail m .ViewPurchaseInvoices
  | .ViewCustomerDetail => escDetail m .ViewCustomers
  | .ViewQuotationDetail => escDetail m .ViewQuotations
  | .ViewSODetail => escDetail m .ViewSalesOrders
  | .ViewSIDetail => escDetail m .ViewSalesInvoices
  | .ViewDNDetail => escDetail m .ViewDeliveryNotes
  | .ViewPRDetail => escDetail m .ViewPurchaseReceipts
  | .ViewPaymentDetail => escDetail m .ViewPayments
  | .ViewCreateSupplier | .ViewCreateSerial | .ViewStockReceive
  | .ViewStockTransfer | .ViewStockIssue | .ViewCreatePO
  | .ViewAddPOItem | .ViewCreatePI | .ViewCreatePR
  | .ViewCreateCustomer | .ViewCreateQuotation | .ViewAddQuotationItem
  | .ViewCreateSO | .ViewCreateSOFromQuotation | .ViewAddSOItem | .ViewCreateSalesInvoice
  | .ViewCreateDN | .ViewCreatePayment
  | .ViewCreateGroup | .ViewCreateBrand | .ViewCreateWarehouse | .ViewCreateVariant
  | .ViewCreateAttrText | .ViewCreateAttrNumeric | .ViewCreateAttrSelect
  | .ViewCreatePIFromPO =>
    if m.prevView ≠ .ViewMain then { m with view := m.prevView }
    else { m with view := .ViewMain }
  | .ViewConfirmDelete | .ViewConfirmAction => { m with view := m.prevView }
  | .ViewAttributes | .ViewItems | .ViewTemplates | .ViewGroups | .ViewBrands =>
    { m with view := .ViewInventoryMenu, breadcrumbs := ["Main", "Inventory"] }
  | .ViewWarehouses | .ViewStock | .ViewSerials =>
    { m with view := .ViewStockMenu, breadcrumbs := ["Main", "Stock"] }
  | .ViewCustomers | .ViewQuotations | .ViewSalesOrders
  | .ViewSalesInvoices | .ViewDeliveryNotes =>
    { m with view := .ViewSalesMenu, breadcrumbs := ["Main", "Sales"] }
  | .ViewSuppliers | .ViewPurchaseOrders | .ViewPurchaseInvoices | .ViewPurchaseReceipts =>
    { m with view := .ViewPurchasingMenu, breadcrumbs := ["Main", "Purchasing"] }
  | .ViewPayments =>
    { m with view := .ViewPaymentsMenu, breadcrumbs := ["Main", "Payments"] }
  | _ => { m with view := .ViewMain, breadcrumbs := ["Main"] }

/-- The repeated list → detail block of `Model.handleEnter`. -/
def enterDetail (m : Model) (item : ListItem) (target : View) (t : Task) :
    Model × List Task :=
  ({ m with selectedItem := item.name, view := target, loading := true,
            breadcrumbs := m.breadcrumbs ++ [item.name] }, [t])

/-- `Model.handleEnter`. -/
def handleEnter (m : Model) : Model × List Task :=
  match m.view with
  | .ViewMain =>
    match m.mainMenu.selectedItem with
    | some item =>
      let m := { m with view := item.view, breadcrumbs := ["Main", item.title] }
      match item.view with
      | .ViewDashboard => ({ m with loading := true }, [.loadDashboard])
      | .ViewInventoryMenu =>
        (createSubMenu m "Inventory"
          [⟨"Items", "View all items", .ViewItems⟩,
           ⟨"Templates", "Item templates with variants", .ViewTemplates⟩,
           ⟨"Groups", "Item groups hierarchy", .ViewGroups⟩,
           ⟨"Brands", "Brand management", .ViewBrands⟩,
           ⟨"Attributes", "Item attributes for variants", .ViewAttributes⟩], [])
      | .ViewStockMenu =>
        (createSubMenu m "Stock"
          [⟨"Warehouses", "View all warehouses", .ViewWarehouses⟩,
           ⟨"Stock Levels", "Current stock & operations", .ViewStock⟩,
           ⟨"Serial Numbers", "Track serialized items", .ViewSerials⟩], [])
      | .ViewSalesMenu =>
        (createSubMenu m "Sales"
          [⟨"Customers", "Customer management", .ViewCustomers⟩,
           ⟨"Quotations", "Sales quotations", .ViewQuotations⟩,
           ⟨"Sales Orders", "SO workflow", .ViewSalesOrders⟩,
           ⟨"Sales Invoices", "Customer invoices", .ViewSalesInvoices⟩,
           ⟨"Delivery Notes", "Shipments from SO", .ViewDeliveryNotes⟩], [])
      | .ViewPurchasingMenu =>
        (createSubMenu m "Purchasing"
          [⟨"Suppliers", "Supplier management", .ViewSuppliers⟩,
           ⟨"Purchase Orders", "PO workflow", .ViewPurchaseOrders⟩,
           ⟨"Purchase Invoices", "Supplier invoices", .ViewPurchaseInvoices⟩,
           ⟨"Purchase Receipts", "Goods received", .ViewPurchaseReceipts⟩], [])
      | .ViewPaymentsMenu =>
        (createSubMenu m "Payments"
          [⟨"All Payments", "View all payment entries", .ViewPayments⟩], [])
      | _ => (m, [])
    | none => (m, [])
  | .ViewInventoryMenu | .ViewStockMenu | .ViewSalesMenu
  | .ViewPurchasingMenu | .ViewPaymentsMenu =>
    match m.subMenu.selectedItem with
    | some item =>
      let m := { m with view := item.view, loading := true,
                        breadcrumbs := m.breadcrumbs.take 2 ++ [item.title] }
      match item.view with
      | .ViewAttributes => (m, [.loadAttributes])
      | .ViewItems => (m, [.loadItems false])
      | .ViewTemplates => (m, [.loadItems true])
      | .ViewGroups => (m, [.loadGroups])
      | .ViewBrands => (m, [.loadBrands])
      | .ViewWarehouses => (m, [.loadWarehouses])
      | .ViewStock => (m, [.loadStock])
      | .ViewSerials => (m, [.loadSerials ""])
      | .ViewSuppliers => (m, [.loadSuppliers])
      | .ViewPurchaseOrders => (m, [.loadPurchaseOrders])
      | .ViewPurchaseInvoices => (m, [.loadPurchaseInvoices])
      | .ViewCustomers => (m, [.loadCustomers])
      | .ViewQuotations => (m, [.loadQuotations])
      | .ViewSalesOrders => (m, [.loadSalesOrders])
      | .ViewSalesInvoices => (m, [.loadSalesInvoices])
      | .ViewDeliveryNotes => (m, [.loadDeliveryNotes])
      | .ViewPurchaseReceipts => (m, [.loadPurchaseReceipts])
      | .ViewPayments => (m, [.loadPayments])
      | _ => (m, [])
    | none => (m, [])
  | .ViewAttributes =>
    match m.currentList.selectedItem with
    | some item => enterDetail m item .ViewAttrDetail (.loadAttrDetail item.name)
    | none => (m, [])
  | .ViewItems | .ViewTemplates =>
    match m.currentList.selectedItem with
    | some item =>
      enterDetail { m with prevView := m.view } item .ViewItemDetail (.loadItemDetail item.name)
    | none => (m, [])
  | .ViewStock =>
    match m.currentList.selectedItem with
    | some item => enterDetail m item .ViewStockDetail (.loadStockDetail item.name)
    | none => (m, [])
  | .ViewSerials =>
    match m.currentList.selectedItem with
    | some item => enterDetail m item .ViewSerialDetail (.loadSerialDetail item.name)
    | none => (m, [])
  | .ViewSuppliers =>
    match m.currentList.selectedItem with
    | some item => enterDetail m item .ViewSupplierDetail (.loadSupplierDetail item.name)
    | none => (m, [])
  | .ViewPurchaseOrders =>
    match m.currentList.selectedItem with
    | some item => enterDetail m item .ViewPODetail (.loadPODetail item.name)
    | none => (m, [])
  | .ViewPurchaseInvoices =>
    match m.currentList.selectedItem with
    | some item => enterDetail m item .ViewPIDetail (.loadPIDetail item.name)
    | none => (m, [])
  | .ViewCustomers =>
    match m.currentList.selectedItem with
    | some item => enterDetail m item .ViewCustomerDetail (.loadCustomerDetail item.name)
    | none => (m, [])
  | .ViewQuotations =>
    match m.currentList.selectedItem with
    | some item => enterDetail m item .ViewQuotationDetail (.loadQuotationDetail item.name)
    | none => (m, [])
  | .ViewSalesOrders =>
    match m.currentList.selectedItem with
    | some item => enterDetail m item .ViewSODetail (.loadSODetail item.name)
    | none => (m, [])
  | .ViewSalesInvoices =>
    match m.currentList.selectedItem with
    | some item => enterDetail m item .ViewSIDetail (.loadSIDetail item.name)
    | none => (m, [])
  | .ViewDeliveryNotes =>
    match m.currentList.selectedItem with
    | some item => enterDetail m item .ViewDNDetail (.loadDNDetail item.name)
    | none => (m, [])
  | .ViewPurchaseReceipts =>
    match m.currentList.selectedItem with
    | some item => enterDetail m item .ViewPRDetail (.loadPRDetail item.name)
    | none => (m, [])
  | .ViewPayments =>
    match m.currentList.selectedItem with
    | some item => enterDetail m item .ViewPaymentDetail (.loadPaymentDetail item.name)
    | none => (m, [])
  | _ => (m, [])

/-! ## Form input controller (`tui_forms.go`) -/

/-- `Model.updateFocus`. -/
def updateFocus (m : Model) : Model :=
  { m with inputs := m.inputs.enum.map (fun p =>
      if (p.1 : Int) = m.focusIndex then p.2.focus else p.2.blur) }

/-- `Model.submitCurrentForm`: sets `loading = true`, records the form's
parent as `prevView` and dispatches the form's submit closure. -/
def submitCurrentForm (m : Model) : Model × List Task :=
  let m := { m with loading := true }
  match m.view with
  | .ViewCreateSupplier =>
    ({ m with prevView := .ViewSuppliers }, [.submitForm .ViewCreateSupplier m.inputs])
  | .ViewCreateSerial =>
    ({ m with prevView := .ViewSerials }, [.submitForm .ViewCreateSerial m.inputs])
  | .ViewStockReceive =>
    ({ m with prevView := .ViewStock }, [.submitForm .ViewStockReceive m.inputs])
  | .ViewStockTransfer =>
    ({ m with prevView := .ViewStock }, [.submitForm .ViewStockTransfer m.inputs])
  | .ViewStockIssue =>
    ({ m with prevView := .ViewStock }, [.submitForm .ViewStockIssue m.inputs])
  | .ViewCreatePO =>
    ({ m with prevView := .ViewPurchaseOrders }, [.submitForm .ViewCreatePO m.inputs])
  | .ViewAddPOItem =>
    ({ m with prevView := .ViewPODetail }, [.submitForm .ViewAddPOItem m.inputs])
  | .ViewCreatePI =>
    ({ m with prevView := .ViewPurchaseInvoices }, [.submitForm .ViewCreatePI m.inputs])
  | .ViewCreateCustomer =>
    ({ m with prevView := .ViewCustomers }, [.submitForm .ViewCreateCustomer m.inputs])
  | .ViewCreateQuotation =>
    ({ m with prevView := .ViewQuotations }, [.submitForm .ViewCreateQuotation m.inputs])
  | .ViewAddQuotationItem =>
    ({ m with prevView := .ViewQuotationDetail }, [.submitForm .ViewAddQuotationItem m.inputs])
  | .ViewCreateSO =>
    ({ m with prevView := .ViewSalesOrders }, [.submitForm .ViewCreateSO m.inputs])
  | .ViewCreateSOFromQuotation =>
    ({ m with prevView := .ViewSalesOrders }, [.submitForm .ViewCreateSOFromQuotation m.inputs])
  | .ViewAddSOItem =>
    ({ m with prevView := .ViewSODetail }, [.submitForm .ViewAddSOItem m.inputs])
  | .ViewCreateSalesInvoice =>
    ({ m with prevView := .ViewSalesInvoices }, [.submitForm .ViewCreateSalesInvoice m.inputs])
  | .ViewCreateDN =>
    ({ m with prevView := .ViewDeliveryNotes }, [.submitForm .ViewCreateDN m.inputs])
  | .ViewCreatePR =>
    ({ m with prevView := .ViewPurchaseReceipts }, [.submitForm .ViewCreatePR m.inputs])
  | .ViewCreatePayment =>
    ({ m with prevView := .ViewPayments }, [.submitForm .ViewCreatePayment m.inputs])
  | .ViewCreateGroup =>
    ({ m with prevView := .ViewGroups }, [.submitForm .ViewCreateGroup m.inputs])
  | .ViewCreateBrand =>
    ({ m with prevView := .ViewBrands }, [.submitForm .ViewCreateBrand m.inputs])
  | .ViewCreateWarehouse =>
    ({ m with prevView := .ViewWarehouses }, [.submitForm .ViewCreateWarehouse m.inputs])
  | .ViewCreateVariant =>
    ({ m with prevView := .ViewTemplates }, [.submitForm .ViewCreateVariant m.inputs])
  | .ViewCreateAttrText | .ViewCreateAttrNumeric | .ViewCreateAttrSelect =>
    ({ m with prevView := .ViewAttributes }, [.submitForm m.view m.inputs])
  | .ViewCreatePIFromPO =>
    ({ m with prevView := .ViewPurchaseInvoices }, [.submitForm .ViewCreatePIFromPO m.inputs])
  | _ => (m, [])

/-- `Model.updateFormInputs`.  (Under `Update`, the "enter" and "esc"
branches are dead code: both keys are intercepted by the outer key
switch before the component switch is reached.) -/
def updateFormInputs (m : Model) (msg : Msg) : Model × List Task :=
  match msg with
  | .key k =>
    if k = "tab" ∨ k = "down" then
      let fi := m.focusIndex + 1
      let fi := if fi ≥ (m.inputs.length : Int) then 0 else fi
      (updateFocus { m with focusIndex := fi }, [])
    else if k = "shift+tab" ∨ k = "up" then
      let fi := m.focusIndex - 1
      let fi := if fi < 0 then (m.inputs.length : Int) - 1 else fi
      (updateFocus { m with focusIndex := fi }, [])
    else if k = "enter" then submitCurrentForm m
    else if k = "esc" then ({ m with view := m.prevView }, [])
    else
      if m.focusIndex < (m.inputs.length : Int) then
        match m.inputs.get? m.focusIndex.toNat with
        | some t =>
          ({ m with inputs := m.inputs.set m.focusIndex.toNat (t.keyUpdate k) }, [])
        | none => (m, [])
      else (m, [])
  | _ => (m, [])

/-! ## The event loop (`Model.Update`) -/

/-- Result of the outer key switch of `Model.Update`: either the case
returned, or control fell through to the per-view component switch
(possibly with the model already mutated by a pointer-receiver
handler). -/
inductive KeyOut where
  | done (m : Model) (tasks : List Task)
  | fall (m : Model)

/-- The per-view component switch at the bottom of `Model.Update`. -/
def componentUpdate (m : Model) (msg : Msg) : Model × List Task :=
  match m.view with
  | .ViewMain =>
    match msg with
    | .key k => ({ m with mainMenu := m.mainMenu.keyUpdate k }, [])
    | _ => (m, [])
  | .ViewInventoryMenu | .ViewStockMenu | .ViewSalesMenu
  | .ViewPurchasingMenu | .ViewPaymentsMenu =>
    match msg with
    | .key k => ({ m with subMenu := m.subMenu.keyUpdate k }, [])
    | _ => (m, [])
  | .ViewDashboard => (m, [])
  | .ViewAttributes | .ViewItems | .ViewTemplates | .ViewGroups | .ViewBrands
  | .ViewWarehouses | .ViewStock | .ViewSerials | .ViewSuppliers
  | .ViewPurchaseOrders | .ViewPurchaseInvoices | .ViewPurchaseReceipts
  | .ViewCustomers | .ViewQuotations | .ViewSalesOrders | .ViewSalesInvoices
  | .ViewDeliveryNotes | .ViewPayments =>
    match msg with
    | .key k => ({ m with currentList := m.currentList.keyUpdate k }, [])
    | _ => (m, [])
  | .ViewCreateSupplier | .ViewCreateSerial | .ViewStockReceive
  | .ViewStockTransfer | .ViewStockIssue
  | .ViewCreatePO | .ViewAddPOItem | .ViewCreatePI | .ViewCreatePR
  | .ViewCreateCustomer | .ViewCreateQuotation | .ViewAddQuotationItem
  | .ViewCreateSO | .ViewCreateSOFromQuotation | .ViewAddSOItem | .ViewCreateSalesInvoice
  | .ViewCreateDN | .ViewCreatePayment
  | .ViewCreateGroup | .ViewCreateBrand | .ViewCreateWarehouse | .ViewCreateVariant
  | .ViewCreateAttrText | .ViewCreateAttrNumeric | .ViewCreateAttrSelect
  | .ViewCreatePIFromPO =>
    updateFormInputs m msg
  | _ => (m, [])

/-- The `"q"` case of the key switch, after the main-screen quit check:
the sales handler may mutate the model, its command is always `nil`, so
the view is then forced back to the main screen. -/
def keyQ (m : Model) : KeyOut :=
  let r := handleSalesKeys m "q"
  if r.2 ≠ [] then .done r.1 r.2
  else .done { r.1 with view := .ViewMain } []

/-- The `"d"` (delete) case of the key switch. -/
def keyD (m : Model) : KeyOut :=
  if m.view ≠ .ViewMain ∧ m.view ≠ .ViewConfirmDelete ∧ m.view ≠ .ViewConfirmAction then
    match m.view with
    | .ViewAttributes | .ViewItems | .ViewTemplates | .ViewGroups | .ViewBrands
    | .ViewSuppliers | .ViewSerials | .ViewCustomers =>
      match m.currentList.selectedItem with
      | some item =>
        .done { m with selectedItem := item.name, prevView := m.view,
                       view := .ViewConfirmDelete } []
      | none => .fall m
    | .ViewSupplierDetail | .ViewSerialDetail | .ViewCustomerDetail =>
      .done { m with prevView := m.view, view := .ViewConfirmDelete } []
    | _ => .fall m
  else .fall m

/-- The `"y"` (confirm) case of the key switch. -/
def keyY (m : Model) : KeyOut :=
  if m.view = .ViewConfirmDelete then
    let m := { m with view := m.prevView }
    .done m (handleDeleteForView m)
  else if m.view = .ViewConfirmAction then
    let r := handleConfirmAction m true
    .done r.1 r.2
  else .fall m

/-- The `"n"` (deny / new) case of the key switch: outside the
confirmation screens the four handlers run in sequence; since they all
return `nil` commands, control always falls through to the component
switch with the (possibly mutated) model. -/
def keyN (m : Model) : KeyOut :=
  if m.view = .ViewConfirmDelete then .done { m with view := m.prevView } []
  else if m.view = .ViewConfirmAction then
    let r := handleConfirmAction m false
    .done r.1 r.2
  else
    let r1 := handleInventoryKeys m "n"
    if r1.2 ≠ [] then .done r1.1 r1.2 else
    let r2 := handlePurchasingKeys r1.1 "n"
    if r2.2 ≠ [] then .done r2.1 r2.2 else
    let r3 := handleStockKeys r2.1 "n"
    if r3.2 ≠ [] then .done r3.1 r3.2 else
    let r4 := handleSalesKeys r3.1 "n"
    if r4.2 ≠ [] then .done r4.1 r4.2 else .fall r4.1

/-- The `"r"` (receive / refresh) case of the key switch: on the stock
views the stock handler runs first (mutating the model, command `nil`),
then `refreshCurrentView` always runs. -/
def keyR (m : Model) : KeyOut :=
  let r1 := if m.view = .ViewStock ∨ m.view = .ViewStockDetail
            then handleStockKeys m "r" else (m, [])
  if r1.2 ≠ [] then .done r1.1 r1.2
  else
    let r2 := refreshCurrentView r1.1
    .done r2.1 r2.2

/-- The `"t"` (transfer) case of the key switch. -/
def keyT (m : Model) : KeyOut :=
  let r := handleStockKeys m "t"
  if r.2 ≠ [] then .done r.1 r.2 else .fall r.1

/-- The `"i"` (issue / invoice) case of the key switch. -/
def keyI (m : Model) : KeyOut :=
  let r1 := handleStockKeys m "i"
  if r1.2 ≠ [] then .done r1.1 r1.2 else
  let r2 := handlePurchasingKeys r1.1 "i"
  if r2.2 ≠ [] then .done r2.1 r2.2 else
  let r3 := handleSalesKeys r2.1 "i"
  if r3.2 ≠ [] then .done r3.1 r3.2 else .fall r3.1

/-- The `"a"` (add item) case of the key switch. -/
def keyA (m : Model) : KeyOut :=
  let r1 := handlePurchasingKeys m "a"
  if r1.2 ≠ [] then .done r1.1 r1.2 else
  let r2 := handleSalesKeys r1.1 "a"
  if r2.2 ≠ [] then .done r2.1 r2.2 else .fall r2.1

/-- The `"s"` (submit document) case of the key switch. -/
def keyS (m : Model) : KeyOut :=
  let r1 := handlePurchasingKeys m "s"
  if r1.2 ≠ [] then .done r1.1 r1.2 else
  let r2 := handleSalesKeys r1.1 "s"
  if r2.2 ≠ [] then .done r2.1 r2.2 else .fall r2.1

/-- The `"x"` (cancel document) case of the key switch. -/
def keyX (m : Model) : KeyOut :=
  let r1 := handlePurchasingKeys m "x"
  if r1.2 ≠ [] then .done r1.1 r1.2 else
  let r2 := handleSalesKeys r1.1 "x"
  if r2.2 ≠ [] then .done r2.1 r2.2 else .fall r2.1

/-- The `"p"` (create payment) case of the key switch. -/
def keyP (m : Model) : KeyOut :=
  let r1 := handlePurchasingKeys m "p"
  if r1.2 ≠ [] then .done r1.1 r1.2 else
  let r2 := handleSalesKeys r1.1 "p"
  if r2.2 ≠ [] then .done r2.1 r2.2 else .fall r2.1

/-- The `"o"` (create SO from quotation / sort) case of the key switch:
on a sortable list view `sortOrder` advances modulo 4 and the list is
refreshed. -/
def keyO (m : Model) : KeyOut :=
  let r1 := handleSalesKeys m "o"
  if r1.2 ≠ [] then .done r1.1 r1.2
  else if isListView r1.1 then
    let m1 := { r1.1 with sortOrder := (r1.1.sortOrder + 1) % 4 }
    let r2 := refreshCurrentView m1
    .done r2.1 r2.2
  else .fall r1.1

/-- The `"v"` (create variant) case of the key switch. -/
def keyV (m : Model) : KeyOut :=
  if m.view = .ViewItemDetail ∧ itemDataNum m "has_variants" = some 1 then
    let m1 := initCreateVariantForm m
    .done { m1 with prevView := m1.view, view := .ViewCreateVariant } []
  else .fall m

/-- The outer key switch of `Model.Update` (the model passed in already
has `message`/`messageType` cleared, as in the source). -/
def keyIntercept (m : Model) (k : String) : KeyOut :=
  if k = "ctrl+c" then .done m [.quit]
  else if k = "q" then
    if m.view = .ViewMain then .done m [.quit] else keyQ m
  else if k = "esc" then .done (escUpdate m) []
  else if k = "enter" then
    let r := handleEnter m
    .done r.1 r.2
  else if k = "d" then keyD m
  else if k = "y" then keyY m
  else if k = "n" then keyN m
  else if k = "r" then keyR m
  else if k = "t" then keyT m
  else if k = "i" then keyI m
  else if k = "a" then keyA m
  else if k = "s" then keyS m
  else if k = "x" then keyX m
  else if k = "p" then keyP m
  else if k = "o" then keyO m
  else if k = "v" then keyV m
  else .fall m

/-- `Model.Update` over the modelled message vocabulary.  Window-resize
and spinner-tick messages only touch presentation state and are not
modelled; the `connectedMsg` writes to the external client record are
likewise outside the model. -/
def Update (m : Model) (msg : Msg) : Model × List Task :=
  match msg with
  | .key k =>
    let m := { m with message := "", messageType := "" }
    match keyIntercept m k with
    | .done m' c => (m', c)
    | .fall m' => componentUpdate m' msg
  | .connected _ _ _ => ({ m with loading := false }, [])
  | .errorMsg e => ({ m with loading := false, message := e, messageType := "error" }, [])
  | .dataLoaded items =>
    let m := { m with loading := false, listItems := items,
                      currentList := ⟨items, 0, ""⟩ }
    (setListTitle m, [])
  | .itemDetail d => ({ m with loading := false, itemData := some d }, [])
  | .actionDone s => refreshCurrentView { m with message := s, messageType := "success" }
  | .dashboardLoaded d => ({ m with loading := false, dashboardData := some d }, [])
  | .stockData items => ({ m with loading := false, listData := items }, [])
  | .formSubmitted success s =>
    let m := { m with loading := false }
    if success then
      let m := { m with notification := s, notificationType := "success",
                        showNotification := true }
      let r := refreshCurrentView m
      (r.1, r.2 ++ [.tickClearNotification 3])
    else ({ m with message := s, messageType := "error" }, [])
  | .clearNotification => ({ m with showNotification := false, notification := "" }, [])

/-! ## Background tasks and the runtime transition system

A dispatched `tea.Cmd` runs off the event loop and delivers exactly one
terminating message.  `TaskMsg t msg` enumerates the messages the Go
closure behind `t` can return, depending on the backend's responses.
The spinner tick and the notification timer are timers, not
backend-facing background tasks. -/

def Task.isBackground : Task → Bool
  | .quit => false
  | .tickClearNotification _ => false
  | _ => true

/-- Loaders that end in `dataLoadedMsg` on success and `errorMsg` on a
request error.  (`loadPurchaseReceipts`/`loadPRDetail` are referenced
from `tui.go` but their defining TUI file is not in the source snapshot;
they are modelled after their siblings and the spec's `ListFetched` /
`DetailFetched` contract.) -/
def Task.isListLoader : Task → Bool
  | .loadAttributes | .loadItems _ | .loadGroups | .loadBrands
  | .loadWarehouses | .loadStock | .loadSerials _ | .loadSuppliers
  | .loadPurchaseOrders | .loadPurchaseInvoices | .loadCustomers
  | .loadQuotations | .loadSalesOrders | .loadSalesInvoices
  | .loadDeliveryNotes | .loadPurchaseReceipts | .loadPayments => true
  | _ => false

/-- Loaders that end in `itemDetailMsg` on success. -/
def Task.isDetailLoader : Task → Bool
  | .loadAttrDetail _ | .loadItemDetail _ | .loadSerialDetail _
  | .loadSupplierDetail _ | .loadPODetail _ | .loadPIDetail _
  | .loadCustomerDetail _ | .loadQuotationDetail _ | .loadSODetail _
  | .loadSIDetail _ | .loadDNDetail _ | .loadPRDetail _
  | .loadPaymentDetail _ => true
  | _ => false

/-- Delete closures: `actionDoneMsg` on success, `errorMsg` on error. -/
def Task.isDeleteCmd : Task → Bool
  | .deleteItem _ _ | .deleteSupplier _ | .deleteSerial _ | .deleteCustomer _ => true
  | _ => false

/-- Document submit/cancel closures: always end in `formSubmittedMsg`. -/
def Task.isDocAction : Task → Bool
  | .submitPO _ | .cancelPO _ | .submitPI _ | .cancelPI _
  | .submitQuotation _ | .cancelQuotation _ | .submitSO _ | .cancelSO _
  | .submitSI _ | .cancelSI _ | .submitDN _ | .cancelDN _
  | .submitPR _ | .cancelPR _ | .submitPayment _ | .cancelPayment _ => true
  | _ => false

/-- One backend request issued by a task (method and resource). -/
structure BackendCall where
  method : String
  resource : String
deriving DecidableEq

/-- `m.inputs[i].Value()`. -/
def inputValue (inps : List TextInput) (i : Nat) : String :=
  ((inps.get? i).map (fun t => t.value)).getD ""

/-- `Model.submitCreateSupplier` (`tui_purchasing.go`): the dispatched
closure validates locally — an empty name returns a failure message
without issuing any backend request — and otherwise POSTs the supplier
and reports success/failure from the response. -/
def submitCreateSupplierRun (inps : List TextInput) (o : Except String Doc) :
    Msg × List BackendCall :=
  let name := inputValue inps 0
  if name = "" then (.formSubmitted false "Supplier name is required", [])
  else
    match o with
    | .error e => (.formSubmitted false e, [⟨"POST", "Supplier"⟩])
    | .ok result =>
      match docGet result "data" with
      | some (.obj d) =>
        (.formSubmitted true
          ("Supplier created: " ++ goDisplay ((docGet d "name").getD .null)),
         [⟨"POST", "Supplier"⟩])
      | _ => (.formSubmitted false "Failed to create supplier", [⟨"POST", "Supplier"⟩])

/-- Terminating messages a background task may deliver. -/
inductive TaskMsg : Task → Msg → Prop where
  | conn (mode url user : String) :
      TaskMsg .detectConnection (.connected mode url user)
  | listOk {t : Task} (h : t.isListLoader = true) (items : List ListItem) :
      TaskMsg t (.dataLoaded items)
  | listErr {t : Task} (h : t.isListLoader = true) (e : String) :
      TaskMsg t (.errorMsg e)
  | detailOk {t : Task} (h : t.isDetailLoader = true) (d : Doc) :
      TaskMsg t (.itemDetail d)
  | detailErr {t : Task} (h : t.isDetailLoader = true) (e : String) :
      TaskMsg t (.errorMsg e)
  | stockRows (code : String) (rows : List Doc) :
      TaskMsg (.loadStockDetail code) (.stockData rows)
  | stockRowsErr (code e : String) :
      TaskMsg (.loadStockDetail code) (.errorMsg e)
  | dashboard (f : DashboardFetch) (l : List SectionWrite)
      (h : Il (stockSectionWrites f) (purchaseSectionWrites f) (systemSectionWrites f)
            (salesSectionWrites f) (paymentSectionWrites f) l) :
      TaskMsg .loadDashboard (.dashboardLoaded (runWrites l))
  | delOk {t : Task} (h : t.isDeleteCmd = true) (s : String) :
      TaskMsg t (.actionDone s)
  | delErr {t : Task} (h : t.isDeleteCmd = true) (e : String) :
      TaskMsg t (.errorMsg e)
  | docDone {t : Task} (h : t.isDocAction = true) (success : Bool) (s : String) :
      TaskMsg t (.formSubmitted success s)
  | formSupplier (inps : List TextInput) (o : Except String Doc) :
      TaskMsg (.submitForm .ViewCreateSupplier inps) (submitCreateSupplierRun inps o).1
  | formOther {v : View} (hv : v ≠ .ViewCreateSupplier) (inps : List TextInput)
      (success : Bool) (s : String) :
      TaskMsg (.submitForm v inps) (.formSubmitted success s)

/-- Runtime state: the model plus the multiset (list) of dispatched
background tasks whose terminating message has not yet been applied. -/
structure Sys where
  model : Model
  pending : List Task

/-- `NewTUI` plus `Init`, which dispatches the connectivity probe (the
spinner tick is presentation-only). -/
def initSys : Sys := ⟨NewTUI, [.detectConnection]⟩

/-- Apply a key press. -/
def sysKey (s : Sys) (k : String) : Sys :=
  ⟨(Update s.model (.key k)).1,
   s.pending ++ ((Update s.model (.key k)).2.filter Task.isBackground)⟩

/-- Deliver a message, consuming the task that produced it (the caller
supplies the remaining pending list). -/
def sysDeliver (s : Sys) (rest : List Task) (msg : Msg) : Sys :=
  ⟨(Update s.model msg).1,
   rest ++ ((Update s.model msg).2.filter Task.isBackground)⟩

/-- One step of the runtime: either the user presses a key, or one
outstanding background task completes and its terminating message is
applied.  Messages are applied one at a time, in arrival order. -/
inductive Step : Sys → Sys → Prop where
  | user (s : Sys) (k : String) : Step s (sysKey s k)
  | deliver (s : Sys) (t : Task) (pre post : List Task) (msg : Msg)
      (hp : s.pending = pre ++ t :: post) (hm : TaskMsg t msg) :
      Step s (sysDeliver s (pre ++ post) msg)

/-- States reachable from process start. -/
def Reachable (s : Sys) : Prop := Relation.ReflTransGen Step initSys s

/-! ## Preservation lemmas -/

def KeyOut.model : KeyOut → Model
  | .done m _ => m
  | .fall m => m

@[simp] theorem refreshCurrentView_fst (m : Model) :
    (refreshCurrentView m).1 = { m with loading := true } := by
  unfold refreshCurrentView
  dsimp only []
  (repeat' split) <;> rfl

@[simp] theorem setListTitle_bc (m : Model) :
    (setListTitle m).breadcrumbs = m.breadcrumbs := rfl

@[simp] theorem handleInventoryKeys_bc (m : Model) (k : String) :
    (handleInventoryKeys m k).1.breadcrumbs = m.breadcrumbs := by
  unfold handleInventoryKeys
  dsimp only []
  (repeat' split) <;> rfl

@[simp] theorem handlePurchasingKeys_bc (m : Model) (k : String) :
    (handlePurchasingKeys m k).1.breadcrumbs = m.breadcrumbs := by
  unfold handlePurchasingKeys
  dsimp only []
  (repeat' split) <;> rfl

@[simp] theorem handleStockKeys_bc (m : Model) (k : String) :
    (handleStockKeys m k).1.breadcrumbs = m.breadcrumbs := by
  unfold handleStockKeys
  dsimp only []
  (repeat' split) <;> rfl

@[simp] theorem handleSalesKeys_bc (m : Model) (k : String) :
    (handleSalesKeys m k).1.breadcrumbs = m.breadcrumbs := by
  unfold handleSalesKeys setInputValue
  dsimp only []
  (repeat' split) <;> rfl

@[simp] theorem handleConfirmAction_bc (m : Model) (b : Bool) :
    (handleConfirmAction m b).1.breadcrumbs = m.breadcrumbs := by
  unfold handleConfirmAction
  split <;> rfl

@[simp] theorem submitCurrentForm_bc (m : Model) :
    (submitCurrentForm m).1.breadcrumbs = m.breadcrumbs := by
  unfold submitCurrentForm
  dsimp only []
  (repeat' split) <;> rfl

@[simp] theorem updateFormInputs_bc (m : Model) (msg : Msg) :
    (updateFormInputs m msg).1.breadcrumbs = m.breadcrumbs := by
  unfold updateFormInputs updateFocus
  dsimp only []
  (repeat' split) <;> first | rfl | simp

@[simp] theorem componentUpdate_bc (m : Model) (msg : Msg) :
    (componentUpdate m msg).1.breadcrumbs = m.breadcrumbs := by
  unfold componentUpdate
  (repeat' split) <;> first | rfl | simp

@[simp] theorem handleInventoryKeys_message (m : Model) (k : String) :
    (handleInventoryKeys m k).1.message = m.message := by
  unfold handleInventoryKeys
  dsimp only []
  (repeat' split) <;> rfl

@[simp] theorem handlePurchasingKeys_message (m : Model) (k : String) :
    (handlePurchasingKeys m k).1.message = m.message := by
  unfold handlePurchasingKeys
  dsimp only []
  (repeat' split) <;> rfl

@[simp] theorem handleStockKeys_message (m : Model) (k : String) :
    (handleStockKeys m k).1.message = m.message := by
  unfold handleStockKeys
  dsimp only []
  (repeat' split) <;> rfl

@[simp] theorem handleSalesKeys_message (m : Model) (k : String) :
    (handleSalesKeys m k).1.message = m.message := by
  unfold handleSalesKeys setInputValue
  dsimp only []
  (repeat' split) <;> rfl

@[simp] theorem handleConfirmAction_message (m : Model) (b : Bool) :
    (handleConfirmAction m b).1.message = m.message := by
  unfold handleConfirmAction
  split <;> rfl

@[simp] theorem submitCurrentForm_message (m : Model) :
    (submitCurrentForm m).1.message = m.message := by
  unfold submitCurrentForm
  dsimp only []
  (repeat' split) <;> rfl

@[simp] theorem updateFormInputs_message (m : Model) (msg : Msg) :
    (updateFormInputs m msg).1.message = m.message := by
  unfold updateFormInputs updateFocus
  dsimp only []
  (repeat' split) <;> first | rfl | simp

@[simp] theorem componentUpdate_message (m : Model) (msg : Msg) :
    (componentUpdate m msg).1.message = m.message := by
  unfold componentUpdate
  (repeat' split) <;> first | rfl | simp

@[simp] theorem escUpdate_message (m : Model) :
    (escUpdate m).message = m.message := by
  unfold escUpdate escDetail
  dsimp only []
  (repeat' split) <;> rfl

@[simp] theorem handleEnter_message (m : Model) :
    (handleEnter m).1.message = m.message := by
  unfold handleEnter enterDetail createSubMenu
  dsimp only []
  (repeat' split) <;> rfl

@[simp] theorem keyQ_message (m : Model) :
    (keyQ m).model.message = m.message := by
  unfold keyQ
  dsimp only []
  (repeat' split) <;> simp [KeyOut.model]

@[simp] theorem keyD_message (m : Model) :
    (keyD m).model.message = m.message := by
  unfold keyD
  (repeat' split) <;> simp [KeyOut.model]

@[simp] theorem keyY_message (m : Model) :
    (keyY m).model.message = m.message := by
  unfold keyY
  dsimp only []
  (repeat' split) <;> simp [KeyOut.model]

@[simp] theorem keyN_message (m : Model) :
    (keyN m).model.message = m.message := by
  unfold keyN
  dsimp only []
  (repeat' split) <;> simp [KeyOut.model]

@[simp] theorem keyR_message (m : Model) :
    (keyR m).model.message = m.message := by
  unfold keyR
  dsimp only []
  (repeat' split) <;> simp [KeyOut.model]

@[simp] theorem keyT_message (m : Model) :
    (keyT m).model.message = m.message := by
  unfold keyT
  dsimp only []
  (repeat' split) <;> simp [KeyOut.model]

@[simp] theorem keyI_message (m : Model) :
    (keyI m).model.message = m.message := by
  unfold keyI
  dsimp only []
  (repeat' split) <;> simp [KeyOut.model]

@[simp] theorem keyA_message (m : Model) :
    (keyA m).model.message = m.message := by
  unfold keyA
  dsimp only []
  (repeat' split) <;> simp [KeyOut.model]

@[simp] theorem keyS_message (m : Model) :
    (keyS m).model.message = m.message := by
  unfold keyS
  dsimp only []
  (repeat' split) <;> simp [KeyOut.model]

@[simp] theorem keyX_message (m : Model) :
    (keyX m).model.message = m.message := by
  unfold keyX
  dsimp only []
  (repeat' split) <;> simp [KeyOut.model]

@[simp] theorem keyP_message (m : Model) :
    (keyP m).model.message = m.message := by
  unfold keyP
  dsimp only []
  (repeat' split) <;> simp [KeyOut.model]

@[simp] theorem keyO_message (m : Model) :
    (keyO m).model.message = m.message := by
  unfold keyO
  dsimp only []
  (repeat' split) <;> simp [KeyOut.model]

@[simp] theorem keyV_message (m : Model) :
    (keyV m).model.message = m.message := by
  unfold keyV
  dsimp only []
  (repeat' split) <;> simp [KeyOut.model, initCreateVariantForm]

theorem keyIntercept_message (m : Model) (k : String) :
    (keyIntercept m k).model.message = m.message := by
  unfold keyIntercept
  by_cases h1 : k = "ctrl+c"
  · simp only [if_pos h1, KeyOut.model]
  simp only [if_neg h1]
  by_cases h2 : k = "q"
  · simp only [if_pos h2]
    by_cases hv : m.view = View.ViewMain
    · simp only [if_pos hv, KeyOut.model]
    · simp only [if_neg hv]
      exact keyQ_message m
  simp only [if_neg h2]
  by_cases h3 : k = "esc"
  · simp only [if_pos h3, KeyOut.model]
    exact escUpdate_message m
  simp only [if_neg h3]
  by_cases h4 : k = "enter"
  · simp only [if_pos h4]
    exact handleEnter_message m
  simp only [if_neg h4]
  by_cases h5 : k = "d"
  · simp only [if_pos h5]
    exact keyD_message m
  simp only [if_neg h5]
  by_cases h6 : k = "y"
  · simp only [if_pos h6]
    exact keyY_message m
  simp only [if_neg h6]
  by_cases h7 : k = "n"
  · simp only [if_pos h7]
    exact keyN_message m
  simp only [if_neg h7]
  by_cases h8 : k = "r"
  · simp only [if_pos h8]
    exact keyR_message m
  simp only [if_neg h8]
  by_cases h9 : k = "t"
  · simp only [if_pos h9]
    exact keyT_message m
  simp only [if_neg h9]
  by_cases h10 : k = "i"
  · simp only [if_pos h10]
    exact keyI_message m
  simp only [if_neg h10]
  by_cases h11 : k = "a"
  · simp only [if_pos h11]
    exact keyA_message m
  simp only [if_neg h11]
  by_cases h12 : k = "s"
  · simp only [if_pos h12]
    exact keyS_message m
  simp only [if_neg h12]
  by_cases h13 : k = "x"
  · simp only [if_pos h13]
    exact keyX_message m
  simp only [if_neg h13]
  by_cases h14 : k = "p"
  · simp only [if_pos h14]
    exact keyP_message m
  simp only [if_neg h14]
  by_cases h15 : k = "o"
  · simp only [if_pos h15]
    exact keyO_message m
  simp only [if_neg h15]
  by_cases h16 : k = "v"
  · simp only [if_pos h16]
    exact keyV_message m
  simp only [if_neg h16]
  rfl

/-- Every key press clears `message`/`messageType` and no branch of the
key switch writes them back. -/
theorem update_key_message (m : Model) (k : String) :
    (Update m (.key k)).1.message = "" := by
  have h1 := keyIntercept_message { m with message := "", messageType := "" } k
  unfold Update
  dsimp only []
  generalize hk : keyIntercept { m with message := "", messageType := "" } k = ko
  rw [hk] at h1
  cases ko with
  | done m' c => exact h1
  | fall m' => simpa [KeyOut.model] using h1

/-! ## Breadcrumb preservation of the key branches -/

@[simp] theorem keyQ_bc (m : Model) :
    (keyQ m).model.breadcrumbs = m.breadcrumbs := by
  unfold keyQ
  (try dsimp only [])
  (repeat' split) <;> simp [KeyOut.model]

@[simp] theorem keyD_bc (m : Model) :
    (keyD m).model.breadcrumbs = m.breadcrumbs := by
  unfold keyD
  (repeat' split) <;> simp [KeyOut.model]

@[simp] theorem keyY_bc (m : Model) :
    (keyY m).model.breadcrumbs = m.breadcrumbs := by
  unfold keyY
  (try dsimp only [])
  (repeat' split) <;> simp [KeyOut.model]

@[simp] theorem keyN_bc (m : Model) :
    (keyN m).model.breadcrumbs = m.breadcrumbs := by
  unfold keyN
  (try dsimp only [])
  (repeat' split) <;> simp [KeyOut.model]

@[simp] theorem keyR_bc (m : Model) :
    (keyR m).model.breadcrumbs = m.breadcrumbs := by
  unfold keyR
  (try dsimp only [])
  (repeat' split) <;> simp [KeyOut.model]

@[simp] theorem keyT_bc (m : Model) :
    (keyT m).model.breadcrumbs = m.breadcrumbs := by
  unfold keyT
  (try dsimp only [])
  (repeat' split) <;> simp [KeyOut.model]

@[simp] theorem keyI_bc (m : Model) :
    (keyI m).model.breadcrumbs = m.breadcrumbs := by
  unfold keyI
  (try dsimp only [])
  (repeat' split) <;> simp [KeyOut.model]

@[simp] theorem keyA_bc (m : Model) :
    (keyA m).model.breadcrumbs = m.breadcrumbs := by
  unfold keyA
  (try dsimp only [])
  (repeat' split) <;> simp [KeyOut.model]

@[simp] theorem keyS_bc (m : Model) :
    (keyS m).model.breadcrumbs = m.breadcrumbs := by
  unfold keyS
  (try dsimp only [])
  (repeat' split) <;> simp [KeyOut.model]

@[simp] theorem keyX_bc (m : Model) :
    (keyX m).model.breadcrumbs = m.breadcrumbs := by
  unfold keyX
  (try dsimp only [])
  (repeat' split) <;> simp [KeyOut.model]

@[simp] theorem keyP_bc (m : Model) :
    (keyP m).model.breadcrumbs = m.breadcrumbs := by
  unfold keyP
  (try dsimp only [])
  (repeat' split) <;> simp [KeyOut.model]

@[simp] theorem keyO_bc (m : Model) :
    (keyO m).model.breadcrumbs = m.breadcrumbs := by
  unfold keyO
  (try dsimp only [])
  (repeat' split) <;> simp [KeyOut.model]

@[simp] theorem keyV_bc (m : Model) :
    (keyV m).model.breadcrumbs = m.breadcrumbs := by
  unfold keyV
  (try dsimp only [])
  (repeat' split) <;> simp [KeyOut.model, initCreateVariantForm]


/-! ## The breadcrumb invariant -/

/-- Breadcrumb well-formedness: the trail starts at the root label
`"Main"` (hence is non-empty). -/
def bcOk (l : List String) : Prop := l.head? = some "Main"

theorem bcOk_ne_nil {l : List String} (h : bcOk l) : l ≠ [] := by
  intro he; rw [he] at h; exact Option.noConfusion h

theorem bcOk_append {l : List String} (xs : List String) (h : bcOk l) :
    bcOk (l ++ xs) := by
  cases l with
  | nil => exact absurd rfl (bcOk_ne_nil h)
  | cons a t => simpa [bcOk] using h

theorem bcOk_take2 {l : List String} (h : bcOk l) : bcOk (l.take 2) := by
  cases l with
  | nil => exact absurd rfl (bcOk_ne_nil h)
  | cons a t => simpa [bcOk] using h

/-- `esc` only ever resets the trail to a well-formed prefix. -/
theorem escUpdate_bcOk {m : Model} (h : bcOk m.breadcrumbs) :
    bcOk (escUpdate m).breadcrumbs := by
  unfold escUpdate escDetail
  dsimp only []
  (repeat' split) <;> first | exact h | exact bcOk_take2 h | simp [bcOk]

/-- `enter` only replaces the trail by a rooted one or appends to it. -/
theorem handleEnter_bcOk {m : Model} (h : bcOk m.breadcrumbs) :
    bcOk (handleEnter m).1.breadcrumbs := by
  unfold handleEnter enterDetail createSubMenu
  dsimp only []
  (repeat' split) <;>
    first
      | exact h
      | exact bcOk_append _ h
      | exact bcOk_append _ (bcOk_take2 h)
      | simp [bcOk]

theorem keyIntercept_bcOk {m : Model} (k : String) (h : bcOk m.breadcrumbs) :
    bcOk (keyIntercept m k).model.breadcrumbs := by
  unfold keyIntercept
  by_cases h1 : k = "ctrl+c"
  · simp only [if_pos h1, KeyOut.model]; exact h
  simp only [if_neg h1]
  by_cases h2 : k = "q"
  · simp only [if_pos h2]
    by_cases hv : m.view = View.ViewMain
    · simp only [if_pos hv, KeyOut.model]; exact h
    · simp only [if_neg hv]; rw [keyQ_bc]; exact h
  simp only [if_neg h2]
  by_cases h3 : k = "esc"
  · simp only [if_pos h3, KeyOut.model]; exact escUpdate_bcOk h
  simp only [if_neg h3]
  by_cases h4 : k = "enter"
  · simp only [if_pos h4]; exact handleEnter_bcOk h
  simp only [if_neg h4]
  by_cases h5 : k = "d"
  · simp only [if_pos h5]; rw [keyD_bc]; exact h
  simp only [if_neg h5]
  by_cases h6 : k = "y"
  · simp only [if_pos h6]; rw [keyY_bc]; exact h
  simp only [if_neg h6]
  by_cases h7 : k = "n"
  · simp only [if_pos h7]; rw [keyN_bc]; exact h
  simp only [if_neg h7]
  by_cases h8 : k = "r"
  · simp only [if_pos h8]; rw [keyR_bc]; exact h
  simp only [if_neg h8]
  by_cases h9 : k = "t"
  · simp only [if_pos h9]; rw [keyT_bc]; exact h
  simp only [if_neg h9]
  by_cases h10 : k = "i"
  · simp only [if_pos h10]; rw [keyI_bc]; exact h
  simp only [if_neg h10]
  by_cases h11 : k = "a"
  · simp only [if_pos h11]; rw [keyA_bc]; exact h
  simp only [if_neg h11]
  by_cases h12 : k = "s"
  · simp only [if_pos h12]; rw [keyS_bc]; exact h
  simp only [if_neg h12]
  by_cases h13 : k = "x"
  · simp only [if_pos h13]; rw [keyX_bc]; exact h
  simp only [if_neg h13]
  by_cases h14 : k = "p"
  · simp only [if_pos h14]; rw [keyP_bc]; exact h
  simp only [if_neg h14]
  by_cases h15 : k = "o"
  · simp only [if_pos h15]; rw [keyO_bc]; exact h
  simp only [if_neg h15]
  by_cases h16 : k = "v"
  · simp only [if_pos h16]; rw [keyV_bc]; exact h
  simp only [if_neg h16]
  exact h

/-- Every update step preserves breadcrumb well-formedness. -/
theorem update_bcOk {m : Model} (msg : Msg) (h : bcOk m.breadcrumbs) :
    bcOk (Update m msg).1.breadcrumbs := by
  cases msg with
  | key k =>
    have h1 := keyIntercept_bcOk (m := { m with message := "", messageType := "" }) k h
    unfold Update
    dsimp only []
    generalize hk : keyIntercept { m with message := "", messageType := "" } k = ko
    rw [hk] at h1
    cases ko with
    | done m' c => exact h1
    | fall m' =>
      rw [componentUpdate_bc]
      simpa [KeyOut.model] using h1
  | connected a b c => exact h
  | errorMsg e => exact h
  | dataLoaded items => exact h
  | itemDetail d => exact h
  | actionDone s =>
    show bcOk (refreshCurrentView _).1.breadcrumbs
    rw [refreshCurrentView_fst]; exact h
  | dashboardLoaded d => exact h
  | stockData items => exact h
  | formSubmitted success str =>
    unfold Update
    dsimp only []
    split
    · rw [refreshCurrentView_fst]; exact h
    · exact h
  | clearNotification => exact h

theorem step_bcOk {s s' : Sys} (hs : Step s s') (h : bcOk s.model.breadcrumbs) :
    bcOk s'.model.breadcrumbs := by
  cases hs with
  | user k => exact update_bcOk _ h
  | deliver t pre post msg hp hm => exact update_bcOk _ h

/-- The invariant holds in every reachable state. -/
theorem reachable_bcOk {s : Sys} (h : Reachable s) : bcOk s.model.breadcrumbs := by
  induction h with
  | refl => rfl
  | tail h1 h2 ih => exact step_bcOk h2 ih

/-! ## sortOrder preservation -/

@[simp] theorem handleSalesKeys_sortOrder (m : Model) (k : String) :
    (handleSalesKeys m k).1.sortOrder = m.sortOrder := by
  unfold handleSalesKeys setInputValue
  dsimp only []
  (repeat' split) <;> rfl

@[simp] theorem submitCurrentForm_sortOrder (m : Model) :
    (submitCurrentForm m).1.sortOrder = m.sortOrder := by
  unfold submitCurrentForm
  dsimp only []
  (repeat' split) <;> rfl

@[simp] theorem updateFormInputs_sortOrder (m : Model) (msg : Msg) :
    (updateFormInputs m msg).1.sortOrder = m.sortOrder := by
  unfold updateFormInputs updateFocus
  dsimp only []
  (repeat' split) <;> first | rfl | simp

@[simp] theorem componentUpdate_sortOrder (m : Model) (msg : Msg) :
    (componentUpdate m msg).1.sortOrder = m.sortOrder := by
  unfold componentUpdate
  (repeat' split) <;> first | rfl | simp

/-- Every branch of the sales key handler returns a `nil` command. -/
theorem handleSalesKeys_cmds (m : Model) (k : String) :
    (handleSalesKeys m k).2 = [] := by
  unfold handleSalesKeys setInputValue
  dsimp only []
  (repeat' split) <;> rfl

/-- On `"o"` the sales handler either does nothing or moves to the
create-SO form (never to a sortable list view). -/
theorem salesO (m : Model) :
    handleSalesKeys m "o" = (m, []) ∨ isListView (handleSalesKeys m "o").1 = false := by
  unfold handleSalesKeys setInputValue
  dsimp only []
  (repeat' split) <;> first | exact Or.inl rfl | exact Or.inr rfl

/-- The fully sequential interleaving: the five sections one after the
other. -/
theorem Il_seq (a b c e p : List SectionWrite) :
    Il a b c e p (a ++ b ++ c ++ e ++ p) := by
  induction a with
  | cons w ta iht => exact Il.stock w iht
  | nil =>
    induction b with
    | cons w tb iht => exact Il.purchase w iht
    | nil =>
      induction c with
      | cons w tc iht => exact Il.system w iht
      | nil =>
        induction e with
        | cons w te iht => exact Il.sales w iht
        | nil =>
          induction p with
          | cons w tp iht => exact Il.payment w iht
          | nil => exact Il.nil

/-! ## Concrete runs of the transition system -/

def xItem : ListItem := ⟨"X", "Item", 0, ""⟩

def yItem : ListItem := ⟨"Y", "Y (Nos)", 0, ""⟩

/-- Connectivity probe delivered at startup. -/
def a1 : Sys := sysDeliver initSys [] (.connected "direct" "http://erp.local" "admin")

def a2 : Sys := sysKey a1 "down"

def a3 : Sys := sysKey a2 "enter"

def a4 : Sys := sysKey a3 "enter"

/-- `q` pressed while the items fetch is still in flight: back on the
main screen with the stale fetch pending. -/
def staleSys : Sys := sysKey a4 "q"

/-- The items fetch delivered while still on the items list. -/
def b5 : Sys := sysDeliver a4 [] (.dataLoaded [xItem])

def u6 : Sys := sysKey b5 "d"

def u7 : Sys := sysKey u6 "n"

def u8 : Sys := sysKey u7 "esc"

def u9 : Sys := sysKey u8 "esc"

def u10 : Sys := sysKey u9 "down"

def u11 : Sys := sysKey u10 "enter"

def u12 : Sys := sysKey u11 "down"

def u13 : Sys := sysKey u12 "enter"

def u14 : Sys := sysDeliver u13 [] (.dataLoaded [yItem])

def u15 : Sys := sysKey u14 "enter"

def u16 : Sys := sysDeliver u15 [] (.stockData [])

def u17 : Sys := sysKey u16 "t"

def u18 : Sys := sysKey u17 "esc"

def u19 : Sys := sysKey u18 "enter"

/-- `r` pressed on the main screen. -/
def c4a : Sys := sysKey a1 "r"

def d3 : Sys := sysKey a2 "down"

def d4 : Sys := sysKey d3 "down"

def d5 : Sys := sysKey d4 "down"

def d6 : Sys := sysKey d5 "enter"

def d7 : Sys := sysKey d6 "enter"

def d8 : Sys := sysDeliver d7 [] (.dataLoaded [])

/-- `n` on the suppliers list opens the create-supplier form; the key
falls through to the focused name input, which now reads `"n"`. -/
def d9 : Sys := sysKey d8 "n"

/-- Backspace erases it again: the required name field is empty. -/
def d10 : Sys := sysKey d9 "backspace"

theorem reachable_a1 : Reachable a1 :=
  Relation.ReflTransGen.single
    (Step.deliver initSys .detectConnection [] [] _ rfl
      (TaskMsg.conn "direct" "http://erp.local" "admin"))

theorem reachable_a2 : Reachable a2 := reachable_a1.tail (Step.user a1 "down")

theorem reachable_a3 : Reachable a3 := reachable_a2.tail (Step.user a2 "enter")

theorem reachable_a4 : Reachable a4 := reachable_a3.tail (Step.user a3 "enter")

theorem reachable_staleSys : Reachable staleSys := reachable_a4.tail (Step.user a4 "q")

theorem reachable_b5 : Reachable b5 :=
  reachable_a4.tail
    (Step.deliver a4 (.loadItems false) [] [] _ rfl (@TaskMsg.listOk (.loadItems false) rfl [xItem]))

theorem reachable_u6 : Reachable u6 := reachable_b5.tail (Step.user b5 "d")

theorem reachable_u7 : Reachable u7 := reachable_u6.tail (Step.user u6 "n")

theorem reachable_u8 : Reachable u8 := reachable_u7.tail (Step.user u7 "esc")

theorem reachable_u9 : Reachable u9 := reachable_u8.tail (Step.user u8 "esc")

theorem reachable_u10 : Reachable u10 := reachable_u9.tail (Step.user u9 "down")

theorem reachable_u11 : Reachable u11 := reachable_u10.tail (Step.user u10 "enter")

theorem reachable_u12 : Reachable u12 := reachable_u11.tail (Step.user u11 "down")

theorem reachable_u13 : Reachable u13 := reachable_u12.tail (Step.user u12 "enter")

theorem reachable_u14 : Reachable u14 :=
  reachable_u13.tail
    (Step.deliver u13 .loadStock [] [] _ rfl (@TaskMsg.listOk .loadStock rfl [yItem]))

theorem reachable_u15 : Reachable u15 := reachable_u14.tail (Step.user u14 "enter")

theorem reachable_u16 : Reachable u16 :=
  reachable_u15.tail
    (Step.deliver u15 (.loadStockDetail "Y") [] [] _ rfl (TaskMsg.stockRows "Y" []))

theorem reachable_u17 : Reachable u17 := reachable_u16.tail (Step.user u16 "t")

theorem reachable_u18 : Reachable u18 := reachable_u17.tail (Step.user u17 "esc")

theorem reachable_u19 : Reachable u19 := reachable_u18.tail (Step.user u18 "enter")

theorem reachable_c4a : Reachable c4a := reachable_a1.tail (Step.user a1 "r")

theorem reachable_d3 : Reachable d3 := reachable_a2.tail (Step.user a2 "down")

theorem reachable_d4 : Reachable d4 := reachable_d3.tail (Step.user d3 "down")

theorem reachable_d5 : Reachable d5 := reachable_d4.tail (Step.user d4 "down")

theorem reachable_d6 : Reachable d6 := reachable_d5.tail (Step.user d5 "enter")

theorem reachable_d7 : Reachable d7 := reachable_d6.tail (Step.user d6 "enter")

theorem reachable_d8 : Reachable d8 :=
  reachable_d7.tail
    (Step.deliver d7 .loadSuppliers [] [] _ rfl (@TaskMsg.listOk .loadSuppliers rfl []))

theorem reachable_d9 : Reachable d9 := reachable_d8.tail (Step.user d8 "n")

theorem reachable_d10 : Reachable d10 := reachable_d9.tail (Step.user d9 "backspace")

/-! ## Claims -/

/-- No `refreshCurrentView` command is the notification timer. -/
theorem refresh_no_tick (m : Model) (n : Nat) :
    Task.tickClearNotification n ∉ (refreshCurrentView m).2 := by
  unfold refreshCurrentView
  dsimp only []
  (repeat' split) <;> simp

/-- C1 (counterexample): in the reachable state `staleSys` the user has
navigated back to the main screen while the items fetch is still
pending; delivering the fetched rows nevertheless overwrites the list
snapshot — no screen-identity check discards it. -/
theorem C1_counterexample :
    Reachable staleSys ∧
    staleSys.model.view = View.ViewMain ∧
    staleSys.pending = [Task.loadItems false] ∧
    staleSys.model.listItems = [] ∧
    (Update staleSys.model (.dataLoaded [xItem])).1.listItems = [xItem] ∧
    (Update staleSys.model (.dataLoaded [xItem])).1.currentList.items = [xItem] :=
  ⟨reachable_staleSys, rfl, rfl, rfl, rfl, rfl⟩

/-- C1 (amended): `dataLoadedMsg` is applied unconditionally — the
delivered rows always overwrite `listItems` and the current list (cursor
reset to 0), whatever screen is current. -/
theorem C1_dataLoaded_unconditional (m : Model) (items : List ListItem) :
    (Update m (.dataLoaded items)).1.listItems = items ∧
    (Update m (.dataLoaded items)).1.currentList.items = items ∧
    (Update m (.dataLoaded items)).1.currentList.index = 0 :=
  ⟨rfl, rfl, rfl⟩

/-- C4 (counterexample): in the reachable state `c4a` (`r` pressed on
the main screen) `loading` is true while no background task is
outstanding. -/
theorem C4_counterexample :
    Reachable c4a ∧ c4a.model.loading = true ∧ c4a.pending = [] :=
  ⟨reachable_c4a, rfl, rfl⟩

/-- C4 (amended): `refreshCurrentView` always sets `loading`, but
dispatches a loader only on the refreshable views; elsewhere it sets
`loading` with no command, so `loading` can be true with no task
outstanding. -/
theorem C4_refresh_characterisation (m : Model) :
    (refreshCurrentView m).1 = { m with loading := true } ∧
    ((refreshCurrentView m).2 = [] ↔ isRefreshableView m.view = false) := by
  refine ⟨refreshCurrentView_fst m, ?_⟩
  cases hv : m.view <;> simp [refreshCurrentView, isRefreshableView, hv]

/-- C7 (counterexample): the reachable state `u19` (a stale
`prevView` lets `esc` land on the items list while the stock trail is
still displayed) carries five breadcrumbs — more than the maximum
screen-nesting depth of four. -/
theorem C7_counterexample :
    Reachable u19 ∧
    u19.model.breadcrumbs = ["Main", "Stock", "Stock Levels", "Y", "Y"] ∧
    u19.model.breadcrumbs.length = 5 :=
  ⟨reachable_u19, rfl, rfl⟩

/-- C7 (amended): in every reachable model the breadcrumb trail is
non-empty and starts at the root label `"Main"` (the length bound of the
original claim fails, see the counterexample). -/
theorem C7_breadcrumbs_rooted {s : Sys} (h : Reachable s) :
    s.model.breadcrumbs ≠ [] ∧ s.model.breadcrumbs.head? = some "Main" :=
  ⟨bcOk_ne_nil (reachable_bcOk h), reachable_bcOk h⟩

theorem C7_witness :
    Reachable initSys ∧
    (initSys.model.breadcrumbs ≠ [] ∧
     initSys.model.breadcrumbs.head? = some "Main") :=
  ⟨Relation.ReflTransGen.refl, C7_breadcrumbs_rooted Relation.ReflTransGen.refl⟩

/-- A list loader never is a document submit/cancel closure. -/
theorem listLoader_not_doc {t : Task} (h : t.isListLoader = true) :
    t.isDocAction = false := by
  cases t <;> first | rfl | exact Bool.noConfusion h

theorem detailLoader_not_doc {t : Task} (h : t.isDetailLoader = true) :
    t.isDocAction = false := by
  cases t <;> first | rfl | exact Bool.noConfusion h

theorem deleteCmd_not_doc {t : Task} (h : t.isDeleteCmd = true) :
    t.isDocAction = false := by
  cases t <;> first | rfl | exact Bool.noConfusion h

theorem listLoader_not_delete {t : Task} (h : t.isListLoader = true) :
    t.isDeleteCmd = false := by
  cases t <;> first | rfl | exact Bool.noConfusion h

theorem detailLoader_not_delete {t : Task} (h : t.isDetailLoader = true) :
    t.isDeleteCmd = false := by
  cases t <;> first | rfl | exact Bool.noConfusion h

theorem docAction_not_delete {t : Task} (h : t.isDocAction = true) :
    t.isDeleteCmd = false := by
  cases t <;> first | rfl | exact Bool.noConfusion h

/-- C9 (counterexample): a successful action completion
(`actionDoneMsg`) sets a success message but schedules no auto-clear
timer — the dispatched commands are exactly the refresh, here none. -/
theorem C9_counterexample :
    (Update NewTUI (.actionDone "Deleted")).1.message = "Deleted" ∧
    (Update NewTUI (.actionDone "Deleted")).1.messageType = "success" ∧
    (Update NewTUI (.actionDone "Deleted")).2 = [] :=
  ⟨rfl, rfl, rfl⟩

/-- C9 (amended): a successful form submission sets the success
notification and schedules the 3-second auto-clear tick; a failed one
sets an error message with no timer, and the next key press clears it.
Document submit/cancel closures terminate in `formSubmittedMsg` and so
get the timer on success; only the delete closures terminate in
`actionDoneMsg`, which sets a success message and only refreshes — no
auto-clear timer is ever scheduled for it. -/
theorem C9_result_policy (m : Model) (s : String) :
    (Update m (.formSubmitted true s)).1.notification = s ∧
    (Update m (.formSubmitted true s)).1.notificationType = "success" ∧
    (Update m (.formSubmitted true s)).1.showNotification = true ∧
    Task.tickClearNotification 3 ∈ (Update m (.formSubmitted true s)).2 ∧
    (Update m (.formSubmitted false s)).1.message = s ∧
    (Update m (.formSubmitted false s)).1.messageType = "error" ∧
    (Update m (.formSubmitted false s)).2 = [] ∧
    (∀ k, (Update (Update m (.formSubmitted false s)).1 (.key k)).1.message = "") ∧
    (Update m (.actionDone s)).1.message = s ∧
    (Update m (.actionDone s)).1.messageType = "success" ∧
    (∀ n, Task.tickClearNotification n ∉ (Update m (.actionDone s)).2) ∧
    (∀ t : Task, t.isDocAction = true → ∀ msg, TaskMsg t msg →
      ∃ ok s2, msg = Msg.formSubmitted ok s2) ∧
    (∀ t : Task, t.isDeleteCmd = true → ∀ msg, TaskMsg t msg →
      (∃ s2, msg = Msg.actionDone s2) ∨ ∃ e2, msg = Msg.errorMsg e2) := by
  have e1 : Update m (.formSubmitted true s) =
      ((refreshCurrentView { m with loading := false, notification := s, notificationType := "success", showNotification := true }).1,
       (refreshCurrentView { m with loading := false, notification := s, notificationType := "success", showNotification := true }).2 ++
         [.tickClearNotification 3]) := rfl
  have e2 : Update m (.formSubmitted false s) =
      ({ m with loading := false, message := s, messageType := "error" }, []) := rfl
  have e3 : Update m (.actionDone s) =
      refreshCurrentView { m with message := s, messageType := "success" } := rfl
  refine ⟨?_, ?_, ?_, ?_, ?_, ?_, ?_, ?_, ?_, ?_, ?_, ?_, ?_⟩
  · rw [e1]; simp
  · rw [e1]; simp
  · rw [e1]; simp
  · rw [e1]; simp
  · rw [e2]
  · rw [e2]
  · rw [e2]
  · intro k; exact update_key_message _ k
  · rw [e3]; simp
  · rw [e3]; simp
  · intro n; rw [e3]; exact refresh_no_tick _ n
  · intro t ht msg hm
    cases hm with
    | conn mode url user => exact Bool.noConfusion ht
    | listOk h items => rw [listLoader_not_doc h] at ht; exact Bool.noConfusion ht
    | listErr h e => rw [listLoader_not_doc h] at ht; exact Bool.noConfusion ht
    | detailOk h d => rw [detailLoader_not_doc h] at ht; exact Bool.noConfusion ht
    | detailErr h e => rw [detailLoader_not_doc h] at ht; exact Bool.noConfusion ht
    | stockRows code rows => exact Bool.noConfusion ht
    | stockRowsErr code e => exact Bool.noConfusion ht
    | dashboard f l hIl => exact Bool.noConfusion ht
    | delOk h s2 => rw [deleteCmd_not_doc h] at ht; exact Bool.noConfusion ht
    | delErr h e => rw [deleteCmd_not_doc h] at ht; exact Bool.noConfusion ht
    | docDone h ok s2 => exact ⟨ok, s2, rfl⟩
    | formSupplier inps o => exact Bool.noConfusion ht
    | formOther hv inps ok s2 => exact Bool.noConfusion ht
  · intro t ht msg hm
    cases hm with
    | conn mode url user => exact Bool.noConfusion ht
    | listOk h items => rw [listLoader_not_delete h] at ht; exact Bool.noConfusion ht
    | listErr h e => rw [listLoader_not_delete h] at ht; exact Bool.noConfusion ht
    | detailOk h d => rw [detailLoader_not_delete h] at ht; exact Bool.noConfusion ht
    | detailErr h e => rw [detailLoader_not_delete h] at ht; exact Bool.noConfusion ht
    | stockRows code rows => exact Bool.noConfusion ht
    | stockRowsErr code e => exact Bool.noConfusion ht
    | dashboard f l hIl => exact Bool.noConfusion ht
    | delOk h s2 => exact Or.inl ⟨s2, rfl⟩
    | delErr h e => exact Or.inr ⟨e, rfl⟩
    | docDone h ok s2 => rw [docAction_not_delete h] at ht; exact Bool.noConfusion ht
    | formSupplier inps o => exact Bool.noConfusion ht
    | formOther hv inps ok s2 => exact Bool.noConfusion ht

/-- The per-section failure notices one collection records, in the
merge's section order. -/
def dashNotices (f : DashboardFetch) : List String :=
  ((match f.items with
    | FetchRes.failed => ["Failed to fetch items"] | _ => []) ++
   (match f.bins with
    | FetchRes.failed => ["Failed to fetch stock data"] | _ => [])) ++
  (match f.purchase with
   | FetchRes.failed => ["Failed to fetch purchasing data"] | _ => []) ++
  (match f.system with
   | FetchRes.failed => ["Failed to fetch system data"] | _ => []) ++
  (match f.sales with
   | FetchRes.failed => ["Failed to fetch sales data"] | _ => []) ++
  (match f.payments with
   | FetchRes.failed => ["Failed to fetch payment data"] | _ => [])

set_option maxHeartbeats 12000000 in
/-- C2: one dashboard collection runs five section tasks (stock,
purchasing, system-counts, sales, payments), each writing its fields of
the shared record under the mutex; whatever the serialisation, a failed
section's notice is in the merged record's notice list and the other
sections' results are still reported. -/
theorem C2_five_tasks_per_section_notices (f : DashboardFetch) (l : List SectionWrite)
    (h : Il (stockSectionWrites f) (purchaseSectionWrites f) (systemSectionWrites f)
          (salesSectionWrites f) (paymentSectionWrites f) l) :
    (loadDashboardWriteLists f).length = 5 ∧
    runWrites l = sequentialMerge f ∧
    (runWrites l).errors = dashNotices f ∧
    (f.items = .failed → "Failed to fetch items" ∈ (runWrites l).errors) ∧
    (f.bins = .failed → "Failed to fetch stock data" ∈ (runWrites l).errors) ∧
    (f.purchase = .failed → "Failed to fetch purchasing data" ∈ (runWrites l).errors) ∧
    (f.sales = .failed → "Failed to fetch sales data" ∈ (runWrites l).errors) ∧
    (f.payments = .failed → "Failed to fetch payment data" ∈ (runWrites l).errors) ∧
    (f.system = .failed → "Failed to fetch system data" ∈ (runWrites l).errors) ∧
    (∀ g, f.purchase = .ok g → (runWrites l).completedPOs = g.completedPOs) ∧
    (∀ g, f.sales = .ok g → (runWrites l).openQuotations = g.openQuotations) ∧
    (∀ g, f.payments = .ok g → (runWrites l).totalReceivables = g.totalReceivables) ∧
    (∀ g, f.system = .ok g → (runWrites l).totalCustomers = g.totalCustomers) := by
  rw [runWrites_eq_sequentialMerge f l h]
  rcases f with ⟨items, bins, purch, sales, pays, sys⟩
  cases items <;> cases bins <;> cases purch <;> cases sales <;> cases pays <;> cases sys <;>
    simp [loadDashboardWriteLists, sequentialMerge, dashNotices,
      stockSectionWrites, purchaseSectionWrites, systemSectionWrites,
      salesSectionWrites, paymentSectionWrites,
      fetchStockMetricsWrites, fetchPurchaseMetricsWrites, fetchSystemMetricsWrites,
      fetchSalesMetricsWrites, fetchPaymentMetricsWrites,
      applyWrite, ReportData.errors, emptyReportData]

/-- A dashboard fetch where the purchasing and payments sections fail
while the system counts come back. -/
def fC2 : DashboardFetch :=
  ⟨.noData, .noData, .failed, .noData, .failed, .ok ⟨1, 2, 3, 4⟩⟩

theorem C2_witness :
    Il (stockSectionWrites fC2) (purchaseSectionWrites fC2) (systemSectionWrites fC2)
      (salesSectionWrites fC2) (paymentSectionWrites fC2)
      (stockSectionWrites fC2 ++ purchaseSectionWrites fC2 ++ systemSectionWrites fC2 ++
        salesSectionWrites fC2 ++ paymentSectionWrites fC2) ∧
    (loadDashboardWriteLists fC2).length = 5 ∧
    (runWrites (stockSectionWrites fC2 ++ purchaseSectionWrites fC2 ++
        systemSectionWrites fC2 ++ salesSectionWrites fC2 ++
        paymentSectionWrites fC2)).errors = dashNotices fC2 :=
  ⟨Il_seq _ _ _ _ _,
   (C2_five_tasks_per_section_notices fC2 _ (Il_seq _ _ _ _ _)).1,
   (C2_five_tasks_per_section_notices fC2 _ (Il_seq _ _ _ _ _)).2.2.1⟩

/-- C5: the dashboard merge is order-independent — any two mutex
serialisations of the five section tasks' writes produce the same final
record, per-section notices included. -/
theorem C5_merge_order_independent (f : DashboardFetch) (l₁ l₂ : List SectionWrite)
    (h₁ : Il (stockSectionWrites f) (purchaseSectionWrites f) (systemSectionWrites f)
          (salesSectionWrites f) (paymentSectionWrites f) l₁)
    (h₂ : Il (stockSectionWrites f) (purchaseSectionWrites f) (systemSectionWrites f)
          (salesSectionWrites f) (paymentSectionWrites f) l₂) :
    runWrites l₁ = runWrites l₂ := by
  rw [runWrites_eq_sequentialMerge f l₁ h₁, runWrites_eq_sequentialMerge f l₂ h₂]

/-- A dashboard fetch with one stock notice and two payment writes. -/
def fC5 : DashboardFetch :=
  ⟨.failed, .noData, .noData, .noData, .ok ⟨5, 7⟩, .noData⟩

theorem C5_witness :
    Il (stockSectionWrites fC5) (purchaseSectionWrites fC5) (systemSectionWrites fC5)
      (salesSectionWrites fC5) (paymentSectionWrites fC5)
      [.wStockNote "Failed to fetch items", .wReceivables 5, .wPayables 7] ∧
    Il (stockSectionWrites fC5) (purchaseSectionWrites fC5) (systemSectionWrites fC5)
      (salesSectionWrites fC5) (paymentSectionWrites fC5)
      [.wReceivables 5, .wPayables 7, .wStockNote "Failed to fetch items"] ∧
    runWrites [SectionWrite.wStockNote "Failed to fetch items", .wReceivables 5, .wPayables 7] =
      runWrites [SectionWrite.wReceivables 5, .wPayables 7, .wStockNote "Failed to fetch items"] :=
  ⟨Il.stock _ (Il.payment _ (Il.payment _ Il.nil)),
   Il.payment _ (Il.payment _ (Il.stock _ Il.nil)),
   C5_merge_order_independent fC5 _ _
     (Il.stock _ (Il.payment _ (Il.payment _ Il.nil)))
     (Il.payment _ (Il.payment _ (Il.stock _ Il.nil)))⟩

/-- C8: the only message `loadDashboard` can deliver is a single
`dashboardLoadedMsg` carrying the fully merged five-section record — the
`sync.WaitGroup` (`wg.Add(5)` … `wg.Wait()`) means no partially written
record is ever published. -/
theorem C8_dashboard_single_full_message (msg : Msg)
    (h : TaskMsg Task.loadDashboard msg) :
    ∃ f, msg = Msg.dashboardLoaded (sequentialMerge f) := by
  cases h with
  | listOk h items => exact absurd h (by decide)
  | listErr h e => exact absurd h (by decide)
  | detailOk h d => exact absurd h (by decide)
  | detailErr h e => exact absurd h (by decide)
  | dashboard f l hIl => exact ⟨f, by rw [runWrites_eq_sequentialMerge f l hIl]⟩
  | delOk h s => exact absurd h (by decide)
  | delErr h e => exact absurd h (by decide)
  | docDone h success s => exact absurd h (by decide)

/-- A dashboard fetch with only the two payment writes. -/
def fC8 : DashboardFetch :=
  ⟨.noData, .noData, .noData, .noData, .ok ⟨9, 11⟩, .noData⟩

theorem C8_witness :
    ∃ f, Msg.dashboardLoaded (runWrites [SectionWrite.wReceivables 9, .wPayables 11]) =
      Msg.dashboardLoaded (sequentialMerge f) :=
  C8_dashboard_single_full_message _
    (TaskMsg.dashboard fC8 [SectionWrite.wReceivables 9, .wPayables 11]
      (Il.payment _ (Il.payment _ Il.nil)))

/-- C6: on the reachable create-supplier form with the required name
field empty, `enter` is routed to `handleEnter`, which has no form case:
no command is dispatched, but no error message is produced either and
the screen just stays — while the (never invoked) submit routine would
have returned the "Supplier name is required" failure without a backend
call.  The advertised empty-form validation is unreachable from the
keyboard. -/
theorem C6_enter_never_submits :
    Reachable d10 ∧
    d10.model.view = View.ViewCreateSupplier ∧
    inputValue d10.model.inputs 0 = "" ∧
    (Update d10.model (.key "enter")).1.view = View.ViewCreateSupplier ∧
    (Update d10.model (.key "enter")).1.message = "" ∧
    (Update d10.model (.key "enter")).2 = [] ∧
    (submitCreateSupplierRun d10.model.inputs (.ok [])).1 =
      Msg.formSubmitted false "Supplier name is required" ∧
    (submitCreateSupplierRun d10.model.inputs (.ok [])).2 = [] :=
  ⟨reachable_d10, rfl, rfl, rfl, rfl, rfl, rfl, rfl⟩

/-- C3 (counterexample): from the reachable items list `b5`, selecting
the row and pressing `esc` restores the screen but not the breadcrumb
trail — `esc` truncates it to the first two labels instead of popping
one level. -/
theorem C3_counterexample :
    Reachable b5 ∧
    b5.model.breadcrumbs = ["Main", "Inventory", "Items"] ∧
    (sysKey (sysKey b5 "enter") "esc").model.view = b5.model.view ∧
    (sysKey (sysKey b5 "enter") "esc").model.breadcrumbs = ["Main", "Inventory"] ∧
    (sysKey (sysKey b5 "enter") "esc").model.breadcrumbs ≠ b5.model.breadcrumbs :=
  ⟨reachable_b5, rfl, rfl, rfl, by decide⟩

theorem take2_append {α : Type} (l : List α) (x : α) (h : 2 ≤ l.length) :
    (l ++ [x]).take 2 = l.take 2 := by
  match l with
  | a :: b :: t => rfl
  | [] => simp at h
  | [a] => simp at h

/-- C3 (amended): selecting an item from the items list and cancelling
from its detail screen restores the list screen, but the breadcrumbs
come back as the two-label prefix of the old trail, not the trail that
was displayed before the selection. -/
theorem C3_select_cancel (m : Model) (item : ListItem)
    (hv : m.view = View.ViewItems)
    (hsel : m.currentList.selectedItem = some item)
    (hlen : 2 ≤ m.breadcrumbs.length) :
    (Update (Update m (.key "enter")).1 (.key "esc")).1.view = View.ViewItems ∧
    (Update (Update m (.key "enter")).1 (.key "esc")).1.breadcrumbs =
      m.breadcrumbs.take 2 := by
  have e1 : Update m (.key "enter") =
      handleEnter { m with message := "", messageType := "" } := rfl
  have h1 : handleEnter { m with message := "", messageType := "" } =
      ({ m with message := "", messageType := "", prevView := .ViewItems, selectedItem := item.name, view := .ViewItemDetail, loading := true, breadcrumbs := m.breadcrumbs ++ [item.name] },
       [.loadItemDetail item.name]) := by
    unfold handleEnter enterDetail
    dsimp only []
    rw [hv]
    dsimp only []
    rw [hsel]
  rw [e1, h1]
  dsimp only []
  have e2 : Update { m with message := "", messageType := "", prevView := .ViewItems, selectedItem := item.name, view := .ViewItemDetail, loading := true, breadcrumbs := m.breadcrumbs ++ [item.name] } (.key "esc") =
      (escUpdate { m with message := "", messageType := "", prevView := .ViewItems, selectedItem := item.name, view := .ViewItemDetail, loading := true, breadcrumbs := m.breadcrumbs ++ [item.name] }, []) := rfl
  rw [e2]
  dsimp only []
  unfold escUpdate escDetail
  dsimp only []
  have hne : ¬ (View.ViewItems = View.ViewTemplates) := by decide
  rw [if_neg hne]
  have hgt : (m.breadcrumbs ++ [item.name]).length > 2 := by
    simp
    omega
  rw [if_pos hgt]
  exact ⟨rfl, take2_append _ _ hlen⟩

theorem C3_witness :
    b5.model.view = View.ViewItems ∧
    b5.model.currentList.selectedItem = some xItem ∧
    2 ≤ b5.model.breadcrumbs.length ∧
    ((Update (Update b5.model (.key "enter")).1 (.key "esc")).1.view = View.ViewItems ∧
     (Update (Update b5.model (.key "enter")).1 (.key "esc")).1.breadcrumbs =
       b5.model.breadcrumbs.take 2) :=
  ⟨rfl, rfl, by decide, C3_select_cancel b5.model xItem rfl rfl (by decide)⟩

/-- One press of `o` on a sortable list view: `sortOrder` advances
modulo 4, the view is refreshed (loader dispatched, `loading` set), the
screen does not change. -/
theorem press_o (m : Model) (h : isListView m = true) :
    (Update m (.key "o")).1.sortOrder = (m.sortOrder + 1) % 4 ∧
    (Update m (.key "o")).1.view = m.view ∧
    (Update m (.key "o")).1.loading = true ∧
    (Update m (.key "o")).2 ≠ [] ∧
    isListView (Update m (.key "o")).1 = true := by
  have e : Update m (.key "o") =
      (match keyO { m with message := "", messageType := "" } with
        | .done m' c => (m', c)
        | .fall m' => componentUpdate m' (.key "o")) := rfl
  rw [e]
  cases hv : m.view <;>
    first
      | (refine ⟨?_, ?_, ?_, ?_, ?_⟩ <;>
          (simp [keyO, handleSalesKeys, refreshCurrentView, isListView, hv]; done))
      | exact absurd h (by simp [isListView, hv])

/-- `o` away from a sortable list view leaves `sortOrder` alone. -/
theorem update_o_not_list (m : Model) (h : isListView m = false) :
    (Update m (.key "o")).1.sortOrder = m.sortOrder := by
  have e : Update m (.key "o") =
      (match keyO { m with message := "", messageType := "" } with
        | .done m' c => (m', c)
        | .fall m' => componentUpdate m' (.key "o")) := rfl
  have h0 : isListView { m with message := "", messageType := "" } = false := h
  have hfall : isListView (handleSalesKeys { m with message := "", messageType := "" } "o").1 = false := by
    rcases salesO { m with message := "", messageType := "" } with hs1 | hs1
    · rw [hs1]
      exact h0
    · exact hs1
  have hk : keyO { m with message := "", messageType := "" } =
      .fall (handleSalesKeys { m with message := "", messageType := "" } "o").1 := by
    unfold keyO
    simp [handleSalesKeys_cmds, hfall]
  rw [e, hk]
  dsimp only []
  rw [componentUpdate_sortOrder, handleSalesKeys_sortOrder]

/-- C10: on a sortable list view each press of `o` advances `sortOrder`
cyclically modulo 4 and refreshes the list in place; four presses return
it to its start; away from the sortable list views `o` leaves
`sortOrder` unchanged. -/
theorem C10_sort_key_cycle (m mo : Model)
    (h : isListView m = true) (hs : m.sortOrder < 4) (ho : isListView mo = false) :
    (Update m (.key "o")).1.sortOrder = (m.sortOrder + 1) % 4 ∧
    (Update m (.key "o")).1.view = m.view ∧
    (Update m (.key "o")).1.loading = true ∧
    (Update m (.key "o")).2 ≠ [] ∧
    (Update (Update (Update (Update m (.key "o")).1 (.key "o")).1 (.key "o")).1
        (.key "o")).1.sortOrder = m.sortOrder ∧
    (Update mo (.key "o")).1.sortOrder = mo.sortOrder := by
  obtain ⟨q1, qv1, ql1, qc1, qi1⟩ := press_o m h
  obtain ⟨q2, qv2, ql2, qc2, qi2⟩ := press_o _ qi1
  obtain ⟨q3, qv3, ql3, qc3, qi3⟩ := press_o _ qi2
  obtain ⟨q4, qv4, ql4, qc4, qi4⟩ := press_o _ qi3
  refine ⟨q1, qv1, ql1, qc1, ?_, update_o_not_list mo ho⟩
  rw [q4, q3, q2, q1]
  omega

/-- A sortable list screen: the payments list. -/
def mList : Model := { NewTUI with view := .ViewPayments }

theorem C10_witness :
    isListView mList = true ∧ mList.sortOrder < 4 ∧ isListView NewTUI = false ∧
    ((Update mList (.key "o")).1.sortOrder = (mList.sortOrder + 1) % 4 ∧
     (Update mList (.key "o")).1.view = mList.view ∧
     (Update mList (.key "o")).1.loading = true ∧
     (Update mList (.key "o")).2 ≠ [] ∧
     (Update (Update (Update (Update mList (.key "o")).1 (.key "o")).1 (.key "o")).1
         (.key "o")).1.sortOrder = mList.sortOrder ∧
     (Update NewTUI (.key "o")).1.sortOrder = NewTUI.sortOrder) :=
  ⟨rfl, by decide, rfl, C10_sort_key_cycle mList NewTUI rfl (by decide) rfl⟩

end ErpTui
